import Mathlib

/-!
# SpaceHunter core simulation: a shallow embedding

This file embeds the core simulation logic of the SpaceHunter arcade
game (automaton steering instincts, player kinematics and weapons,
armoury trading, spacejunk fragmentation, save/restore) as Lean
definitions, translated from the Python source
(`spacehunter/automaton.py`, `player.py`, `armoury.py`, `spacejunk.py`,
`weapons.py`, `app.py`), and proves properties of the specification
against them.

Modelling conventions:
* `pygame.math.Vector2` becomes `Vec` (a pair of reals); float
  arithmetic is idealised as real arithmetic.
* Python ints become `ℤ` (or `ℕ` for indices and counts); tick
  timestamps from `pygame.time.get_ticks()` are passed in as explicit
  `now : ℤ` arguments; random draws (`random.uniform`, `randrange`)
  are passed in as explicit arguments.
* Mutating methods become state-passing functions; code paths that
  raise in Python (unbound local, index error) return `Except.error`.
* Side effects on the app (sprite-group membership, explosions,
  warnings) are explicit fields of an `App.State` record or explicit
  result components.
-/

/-- 2-D vector, modelling `pygame.math.Vector2`. -/
@[ext]
structure Vec where
  x : ℝ
  y : ℝ

namespace Vec

def add (v w : Vec) : Vec := ⟨v.x + w.x, v.y + w.y⟩

def sub (v w : Vec) : Vec := ⟨v.x - w.x, v.y - w.y⟩

def smul (c : ℝ) (v : Vec) : Vec := ⟨c * v.x, c * v.y⟩

/-- `Vector2.length()` / `Vector2.magnitude()`. -/
noncomputable def len (v : Vec) : ℝ := Real.sqrt (v.x ^ 2 + v.y ^ 2)

/-- `Vector2.normalize()`: divide by the length. -/
noncomputable def normalize (v : Vec) : Vec := smul (1 / v.len) v

/-- `Vector2.scale_to_length(m)`: rescale to length `m`, keeping direction. -/
noncomputable def scaleToLength (v : Vec) (m : ℝ) : Vec := smul (m / v.len) v

/-- `Vector2.rotate(a)` with `a` in degrees (counterclockwise in
vector coordinates, as pygame does). -/
noncomputable def rotateDeg (v : Vec) (a : ℝ) : Vec :=
  let r := a * Real.pi / 180
  ⟨v.x * Real.cos r - v.y * Real.sin r, v.x * Real.sin r + v.y * Real.cos r⟩

end Vec

/-- Python float `%` with a positive modulus (`a - b * ⌊a / b⌋`). -/
noncomputable def pmod (a b : ℝ) : ℝ := a - b * ⌊a / b⌋

/-- Degrees form of `Vector2.as_polar()`'s angle component. -/
noncomputable def asPolarPhi (v : Vec) : ℝ := Complex.arg ⟨v.x, v.y⟩ * 180 / Real.pi

/-- `Automaton.vel_to_dir`: convert a velocity vector to a display
direction (0 degrees at 12 o'clock). -/
noncomputable def velToDir (v : Vec) : ℝ :=
  let phi := asPolarPhi v
  let angle := if phi > 180 then phi + 90 else -phi - 90
  if angle > 0 then angle else angle + 360

/-! ## Automaton (`automaton.py`): instinct-driven steering actor -/

/-- A sprite that can be targeted: all the automaton reads from it is
its `pos` attribute. -/
structure SpriteRef where
  pos : Vec

/-- The polymorphic target of a SEEK/FLEE instinct: a fixed
`pygame.math.Vector2`, a single sprite, or a sprite group. -/
inductive Target where
  | vec (v : Vec)
  | sprite (s : SpriteRef)
  | group (g : List SpriteRef)

namespace Automaton

/-- Behaviour mode flags (bitmask values from `automaton.py`). -/
def SEEK : ℕ := 1

def FLEE : ℕ := 2

def WANDER : ℕ := 4

def PASSIVE : ℕ := 8

def MAX_SPEED : ℝ := 10

def MAX_VELR : ℝ := 3

def MAX_HEALTH : ℤ := 100

def WANDER_INT : ℤ := 100

def WANDER_MAX_TURN : ℝ := 180

def WANDER_RING_RADIUS : ℝ := 200

def WANDER_RING_DISTANCE : ℝ := 100

def APPROACH_RADIUS : ℝ := 100

def SEEK_FORCE : ℝ := 0.6

def FLEE_FORCE : ℝ := 0.6

def FLEE_DISTANCE : ℝ := 100

/-- The mutable state of an `Automaton` sprite (constructor fields of
`Automaton.__init__`; the image/rect bookkeeping is not modelled except
for the collision `radius`; `alive` records sprite-group membership,
set to `false` by `kill()`). -/
structure State where
  pos : Vec
  vel : Vec
  velr : ℝ
  maxvel : ℝ
  maxvelr : ℝ
  initAcc : Vec
  acc : Vec
  accr : ℝ
  rot : ℝ
  radius : ℝ
  instinct : ℕ
  health : ℤ
  seekTarget : Option Target
  seekTargetPos : Option Vec
  fleeTarget : Option Target
  fleeTargetPos : Option Vec
  faceDirOfTravel : Bool
  wanderVec : Vec
  lastWander : ℤ
  alive : Bool

/-- One step of the nearest-sprite fold of `_get_target_sprite`: the
accumulator is `none` while `nearest` is still `math.inf`. -/
noncomputable def nearestStep (pos : Vec) (acc : Option (SpriteRef × ℝ)) (t : SpriteRef) :
    Option (SpriteRef × ℝ) :=
  let distance := (Vec.sub pos t.pos).len
  match acc with
  | none => some (t, distance)
  | some (b, nd) => if distance < nd then some (t, distance) else some (b, nd)

/-- `Automaton._get_target_sprite`: nearest sprite of a group by
Euclidean distance (`none` for an empty group). -/
noncomputable def getTargetSprite (pos : Vec) (g : List SpriteRef) : Option SpriteRef :=
  (g.foldl (nearestStep pos) none).map Prod.fst

/-- `Automaton._get_target_pos`: position of a designated target.  If
the target is none of the three recognised shapes (in the source: the
target is `None`), no branch assigns `pos` and the method raises
`UnboundLocalError`, modelled as `Except.error`. -/
noncomputable def getTargetPos (pos : Vec) (target : Option Target) : Except Unit (Option Vec) :=
  match target with
  | some (Target.vec v) => Except.ok (some v)
  | some (Target.sprite s) => Except.ok (some s.pos)
  | some (Target.group g) =>
      match getTargetSprite pos g with
      | none => Except.ok none
      | some spr => Except.ok (some spr.pos)
  | none => Except.error ()

/-- The steering force computed by `Automaton._seek` once the target
position `tp` has resolved (arrival behaviour inside
`APPROACH_RADIUS`, clamped to `SEEK_FORCE`). -/
noncomputable def seekSteerCalc (pos vel : Vec) (maxvel : ℝ) (tp : Vec) : Vec :=
  let desired0 := Vec.sub tp pos
  let dist := desired0.len
  let desired1 := desired0.normalize
  let desired2 :=
    if dist < APPROACH_RADIUS then Vec.smul (dist / APPROACH_RADIUS * maxvel) desired1
    else Vec.smul maxvel desired1
  let steer := Vec.sub desired2 vel
  if steer.len > SEEK_FORCE then steer.scaleToLength SEEK_FORCE else steer

/-- The steering force computed by `Automaton._flee` once the target
position `tp` has resolved (run directly away inside `FLEE_DISTANCE`,
otherwise keep the current heading at `maxvel`; clamped to
`FLEE_FORCE`). -/
noncomputable def fleeSteerCalc (pos vel : Vec) (maxvel : ℝ) (tp : Vec) : Vec :=
  let dist := Vec.sub pos tp
  let desired :=
    if dist.len < FLEE_DISTANCE then Vec.smul maxvel (Vec.sub pos tp).normalize
    else if vel.len = 0 then Vec.mk 0 0
    else Vec.smul maxvel vel.normalize
  let steer := Vec.sub desired vel
  if steer.len > FLEE_FORCE then steer.scaleToLength FLEE_FORCE else steer

/-- `Automaton._seek`: resolve the seek target and return the steering
force together with the resolved position (the value the source caches
in `self._seek_target_pos`); zero force when unresolved. -/
noncomputable def seekRun (s : State) : Except Unit (Vec × Option Vec) :=
  match getTargetPos s.pos s.seekTarget with
  | Except.error e => Except.error e
  | Except.ok none => Except.ok (Vec.mk 0 0, none)
  | Except.ok (some tp) => Except.ok (seekSteerCalc s.pos s.vel s.maxvel tp, some tp)

/-- `Automaton._flee`: resolve the flee target and return the steering
force together with the resolved position (cached in
`self._flee_target_pos`); zero force when unresolved. -/
noncomputable def fleeRun (s : State) : Except Unit (Vec × Option Vec) :=
  match getTargetPos s.pos s.fleeTarget with
  | Except.error e => Except.error e
  | Except.ok none => Except.ok (Vec.mk 0 0, none)
  | Except.ok (some tp) => Except.ok (fleeSteerCalc s.pos s.vel s.maxvel tp, some tp)

/-- The wander ring vector after the interval check of
`Automaton._wander` (`draw` is the `uniform(-WANDER_MAX_TURN,
WANDER_MAX_TURN)` sample). -/
noncomputable def wanderVecNew (s : State) (now : ℤ) (draw : ℝ) : Vec :=
  if now - s.lastWander > WANDER_INT then (Vec.mk WANDER_RING_RADIUS 0).rotateDeg draw
  else s.wanderVec

/-- The look-ahead point of `Automaton._wander`. -/
noncomputable def wanderFuture (s : State) : Vec :=
  if s.vel.len = 0 then Vec.add s.pos (Vec.smul WANDER_RING_DISTANCE (Vec.mk 0 0))
  else Vec.add s.pos (Vec.smul WANDER_RING_DISTANCE s.vel.normalize)

/-- The wander target point fed into `_seek` by `Automaton._wander`. -/
noncomputable def wanderTarget (s : State) (now : ℤ) (draw : ℝ) : Vec :=
  Vec.add (wanderFuture s) (wanderVecNew s now draw)

/-- `Automaton._wander`: update the wander ring state, overwrite
`seek_target` with the wander point, and run `_seek` on it. -/
noncomputable def wanderRun (s : State) (now : ℤ) (draw : ℝ) : Except Unit (Vec × State) :=
  let s1 : State :=
    { s with wanderVec := wanderVecNew s now draw,
             lastWander := if now - s.lastWander > WANDER_INT then now else s.lastWander,
             seekTarget := some (Target.vec (wanderTarget s now draw)) }
  match seekRun s1 with
  | Except.error e => Except.error e
  | Except.ok (steer, tp) => Except.ok (steer, { s1 with seekTargetPos := tp })

/-- The SEEK-and-below part of `Automaton._apply_instinct` (the WANDER
and PASSIVE fallbacks). -/
noncomputable def afterSeek (s : State) (now : ℤ) (draw : ℝ) : Except Unit State :=
  if s.instinct &&& WANDER ≠ 0 then
    match wanderRun s now draw with
    | Except.error e => Except.error e
    | Except.ok (steer, s1) => Except.ok { s1 with acc := steer }
  else if s.instinct &&& PASSIVE ≠ 0 then Except.ok { s with acc := s.initAcc, accr := 0 }
  else Except.ok s

/-- The part of `Automaton._apply_instinct` that runs when FLEE did not
commit. -/
noncomputable def afterFlee (s : State) (now : ℤ) (draw : ℝ) : Except Unit State :=
  if s.instinct &&& SEEK ≠ 0 then
    match seekRun s with
    | Except.error e => Except.error e
    | Except.ok (steer, tp) =>
        let s1 : State := { s with acc := steer, seekTargetPos := tp }
        if tp.isSome then Except.ok s1 else afterSeek s1 now draw
  else afterSeek s now draw

/-- `Automaton._apply_instinct`: test instincts in order FLEE, SEEK,
WANDER, PASSIVE; a FLEE/SEEK whose target resolved commits its steering
force as this tick's acceleration and returns. -/
noncomputable def applyInstinct (s : State) (now : ℤ) (draw : ℝ) : Except Unit State :=
  if s.instinct &&& FLEE ≠ 0 then
    match fleeRun s with
    | Except.error e => Except.error e
    | Except.ok (steer, tp) =>
        let s1 : State := { s with acc := steer, fleeTargetPos := tp }
        if tp.isSome then Except.ok s1 else afterFlee s1 now draw
  else afterFlee s now draw

/-- `Automaton.update`: apply the instinct, integrate velocity with the
speed clamps, integrate position/rotation, wrap at the display edges
(base-class `_check_in_play`), and kill the sprite when health is
depleted (base-class `_check_health`; base-class `_do_events` is a
no-op). -/
noncomputable def update (s : State) (now : ℤ) (draw : ℝ) (width height : ℝ) :
    Except Unit State :=
  match applyInstinct s now draw with
  | Except.error e => Except.error e
  | Except.ok s1 =>
    let vel1 := Vec.add s1.vel s1.acc
    let velr1 := s1.velr + s1.accr
    let vel2 := if vel1.len > s1.maxvel then vel1.scaleToLength s1.maxvel else vel1
    let velr2 :=
      if |velr1| > s1.maxvelr then (if velr1 < 0 then -s1.maxvelr else s1.maxvelr) else velr1
    let pos1 := Vec.add s1.pos vel2
    let rot1 := s1.rot + velr2
    let rot2 := if s1.faceDirOfTravel then pmod (velToDir vel2) 360 else rot1
    let px1 := if pos1.x < 0 then width else pos1.x
    let px2 := if px1 > width then 0 else px1
    let py1 := if pos1.y < 0 then height else pos1.y
    let py2 := if py1 > height then 0 else py1
    let alive1 := if s1.health ≤ 0 then false else s1.alive
    Except.ok { s1 with vel := vel2, velr := velr2, pos := ⟨px2, py2⟩, rot := rot2,
                        alive := alive1 }

end Automaton


/-- A concrete automaton state used to instantiate theorems: the
constructor defaults of `Automaton.__init__` at the origin. -/
noncomputable def baseAuto : Automaton.State where
  pos := ⟨0, 0⟩
  vel := ⟨0, 0⟩
  velr := 0
  maxvel := Automaton.MAX_SPEED
  maxvelr := Automaton.MAX_VELR
  initAcc := ⟨0, 0⟩
  acc := ⟨0, 0⟩
  accr := 0
  rot := 0
  radius := 20
  instinct := Automaton.PASSIVE
  health := Automaton.MAX_HEALTH
  seekTarget := none
  seekTargetPos := none
  fleeTarget := none
  fleeTargetPos := none
  faceDirOfTravel := true
  wanderVec := ⟨0, 0⟩
  lastWander := 0
  alive := true


/-! ## Globals (`globals.py`) and weapon classes (`weapons.py`) -/

def PLAYER : ℤ := 0

def ENEMY : ℤ := 1

def LIVES : ℤ := 3

def NEW_LIFE_INT : ℤ := 2000

def ASTSPEED : ℤ := 6

def NEWGAME : ℤ := 0

def PLAYING : ℤ := 1

def PAUSED : ℤ := 2

def GAMEOVER : ℤ := 3

/-- The concrete weapon classes of `weapons.py` (also the rows of the
armoury's `WPN_CLASSES`).  The source stores the class name as a string
in each weapon-bay entry and looks the class object up by name via
`globals()[...]`; here the name is this enum and the lookup is
`classStats`. -/
inductive WpnClassName where
  | Empty
  | Laser
  | UltraLaser
  | Gatling
  | Missile
  | Sidewinder
  | Mine
deriving DecidableEq, Repr

/-- The static per-class constants each weapon class defines. -/
structure WpnStats where
  wpn_cost : ℤ
  ammo_cost : ℤ
  damage : ℤ
  capacity : ℤ
  auto_replenish : ℤ
  rate_of_fire : ℤ
  max_temp : ℤ
deriving DecidableEq, Repr

/-- Class constants from `weapons.py`. -/
def classStats : WpnClassName → WpnStats
  | WpnClassName.Empty =>
      { wpn_cost := 0, ammo_cost := 0, damage := 0, capacity := 100,
        auto_replenish := 0, rate_of_fire := 0, max_temp := 0 }
  | WpnClassName.Laser =>
      { wpn_cost := 1000, ammo_cost := 30, damage := 10, capacity := 100,
        auto_replenish := 5, rate_of_fire := 600, max_temp := 30 }
  | WpnClassName.UltraLaser =>
      { wpn_cost := 4000, ammo_cost := 60, damage := 20, capacity := 100,
        auto_replenish := 4, rate_of_fire := 600, max_temp := 40 }
  | WpnClassName.Gatling =>
      { wpn_cost := 5000, ammo_cost := 50, damage := 30, capacity := 300,
        auto_replenish := 0, rate_of_fire := 1500, max_temp := 50 }
  | WpnClassName.Missile =>
      { wpn_cost := 10000, ammo_cost := 1500, damage := 100, capacity := 80,
        auto_replenish := 2, rate_of_fire := 1, max_temp := 0 }
  | WpnClassName.Sidewinder =>
      { wpn_cost := 5000, ammo_cost := 50, damage := 100, capacity := 100,
        auto_replenish := 0, rate_of_fire := 1, max_temp := 0 }
  | WpnClassName.Mine =>
      { wpn_cost := 15000, ammo_cost := 2000, damage := 100, capacity := 5,
        auto_replenish := 0, rate_of_fire := 1, max_temp := 0 }

/-- A weapon-bay entry (`{"wpn_class": ..., "ammo": ..., "temp": ...}`
dict in the source). -/
structure WpnEntry where
  wpn_class : WpnClassName
  ammo : ℤ
  temp : ℤ
deriving DecidableEq, Repr

/-- The data of a projectile sprite at the moment it is spawned by a
weapon-class constructor (`Weapon.__init__` through the concrete
classes of `weapons.py`): class, source tag, position, rotation, and
the class-specific kinematics passed to `Automaton.__init__`. -/
structure ProjSpawn where
  cls : WpnClassName
  source : ℤ
  pos : Vec
  rot : ℝ
  vel : Vec
  acc : Vec
  maxvel : ℝ
  radius : ℝ
  health : ℤ

/-- Spawn a projectile of the given class from position `pos` facing
`rot` degrees (`playerVel` is read by the `Mine` constructor, which
inherits the firer's velocity).  Velocity/acceleration literals are the
`vec(...).rotate(rot * -1)` expressions of each constructor. -/
noncomputable def mkProjectile (cls : WpnClassName) (source : ℤ) (pos : Vec) (rot : ℝ)
    (playerVel : Vec) : ProjSpawn :=
  match cls with
  | WpnClassName.Empty =>
      { cls := cls, source := source, pos := pos, rot := rot, vel := ⟨0, 0⟩, acc := ⟨0, 0⟩,
        maxvel := Automaton.MAX_SPEED, radius := 0, health := Automaton.MAX_HEALTH }
  | WpnClassName.Laser =>
      { cls := cls, source := source, pos := pos, rot := rot,
        vel := (Vec.mk 0 (-30)).rotateDeg (rot * -1), acc := ⟨0, 0⟩,
        maxvel := 30, radius := 3, health := 1 }
  | WpnClassName.UltraLaser =>
      { cls := cls, source := source, pos := pos, rot := rot,
        vel := (Vec.mk 0 (-30)).rotateDeg (rot * -1), acc := ⟨0, 0⟩,
        maxvel := 30, radius := 3, health := 1 }
  | WpnClassName.Gatling =>
      { cls := cls, source := source, pos := pos, rot := rot,
        vel := (Vec.mk 0 (-15)).rotateDeg (rot * -1), acc := ⟨0, 0⟩,
        maxvel := 15, radius := 3, health := 3 }
  | WpnClassName.Missile =>
      { cls := cls, source := source, pos := pos, rot := rot,
        vel := (Vec.mk 0 (-3)).rotateDeg (rot * -1),
        acc := (Vec.mk 0 (-0.1)).rotateDeg (rot * -1),
        maxvel := 20, radius := 6, health := Automaton.MAX_HEALTH }
  | WpnClassName.Sidewinder =>
      { cls := cls, source := source, pos := pos, rot := rot,
        vel := (Vec.mk 0 (-3)).rotateDeg (rot * -1),
        acc := (Vec.mk 0 (-0.1)).rotateDeg (rot * -1),
        maxvel := 30, radius := 10, health := Automaton.MAX_HEALTH }
  | WpnClassName.Mine =>
      { cls := cls, source := source, pos := pos, rot := rot, vel := playerVel,
        acc := ⟨0, 0⟩, maxvel := 99, radius := 6, health := Automaton.MAX_HEALTH }

/-- The collision damage a projectile deals (the class `damage`
constant). -/
def ProjSpawn.damage (pr : ProjSpawn) : ℤ := (classStats pr.cls).damage

/-! ## Spacejunk (`spacejunk.py`) -/

/-- Explosion sizes passed to `Explosion(app, pos, size)`. -/
inductive ExplSize where
  | sm
  | lg
  | death
deriving DecidableEq, Repr

/-- State of an `Asteroid` sprite (radius is the integer
`int(rect.width * 0.85 / 2)`; `damage` the kinetic-energy proxy
computed at construction). -/
structure AsteroidState where
  pos : Vec
  vel : Vec
  radius : ℕ
  damage : ℤ

/-- State of a `Debris` sprite. -/
structure DebrisState where
  pos : Vec
  vel : Vec
  radius : ℕ
  damage : ℤ

/-- State of a `Wreckage` sprite. -/
structure WreckageState where
  pos : Vec
  vel : Vec
  radius : ℕ
  damage : ℤ

/-- The random draws consumed by the `Debris` constructor: the two
`randrange(-ASTSPEED, ASTSPEED)` velocity jitters and the two
`randrange(...)` image-scale draws (`w1` becomes the scaled
`rect.width`). -/
structure DebrisDraws where
  jx : ℤ
  jy : ℤ
  w1 : ℕ
  w2 : ℕ
deriving DecidableEq, Repr

/-- `Debris.__init__`: child debris at `pos` inheriting `vel` plus the
jitter draw; radius derived from the scaled image width
(`int(w1 * 0.85 / 2)`, with `0.85 = 17/20`); damage is the
kinetic-energy proxy `int(radius * |vel|**2 / 4)`. -/
noncomputable def mkDebris (pos : Vec) (vel : Vec) (d : DebrisDraws) : DebrisState :=
  let v := Vec.add vel ⟨(d.jx : ℝ), (d.jy : ℝ)⟩
  let r := d.w1 * 17 / 40
  { pos := pos, vel := v, radius := r, damage := ⌊(r : ℝ) * v.len ^ 2 / 4⌋ }

/-- A member of the app's `spacejunk_group` (asteroids and debris are
both added to it). -/
inductive SpaceJunk where
  | ast (a : AsteroidState)
  | deb (d : DebrisState)

noncomputable instance : DecidableEq SpaceJunk := Classical.decEq _

def SpaceJunk.pos : SpaceJunk → Vec
  | SpaceJunk.ast a => a.pos
  | SpaceJunk.deb d => d.pos

def SpaceJunk.radiusN : SpaceJunk → ℕ
  | SpaceJunk.ast a => a.radius
  | SpaceJunk.deb d => d.radius

def SpaceJunk.damage : SpaceJunk → ℤ
  | SpaceJunk.ast a => a.damage
  | SpaceJunk.deb d => d.damage

def SpaceJunk.isAsteroid : SpaceJunk → Bool
  | SpaceJunk.ast _ => true
  | SpaceJunk.deb _ => false

/-- The child debris constructed by `Asteroid.disintegrate`'s
`for _ in range(int(self.radius / 4))` loop. -/
noncomputable def asteroidChildren (a : AsteroidState) (draws : ℕ → DebrisDraws) :
    List DebrisState :=
  (List.range (a.radius / 4)).map (fun k => mkDebris a.pos a.vel (draws k))

/-- `Asteroid.disintegrate`: spawn a large explosion, construct
`int(radius / 4)` child `Debris` and add each to the app's
`spacejunk_group`, then `kill()` the asteroid (removing it from the
group). -/
noncomputable def Asteroid.disintegrate (a : AsteroidState) (junk : List SpaceJunk)
    (draws : ℕ → DebrisDraws) : List SpaceJunk × List (Vec × ExplSize) :=
  ((junk ++ (asteroidChildren a draws).map SpaceJunk.deb).erase (SpaceJunk.ast a),
   [(a.pos, ExplSize.lg)])

/-- The child debris constructed by `Debris.disintegrate`'s loop. -/
noncomputable def debrisChildren (d : DebrisState) (draws : ℕ → DebrisDraws) :
    List DebrisState :=
  (List.range (d.radius / 4)).map (fun k => mkDebris d.pos d.vel (draws k))

/-- `Debris.disintegrate`: spawn a small explosion and construct
`int(radius / 4)` child `Debris` objects — but, unlike
`Asteroid.disintegrate`, add none of them to any sprite group — then
`kill()` the debris itself.  The constructed children are returned as
the middle component only to state what the loop builds; they reach no
group. -/
noncomputable def Debris.disintegrate (d : DebrisState) (junk : List SpaceJunk)
    (draws : ℕ → DebrisDraws) : List SpaceJunk × List DebrisState × List (Vec × ExplSize) :=
  (junk.erase (SpaceJunk.deb d), debrisChildren d draws, [(d.pos, ExplSize.sm)])

/-! ## App state (`app.py`) and persisted game data -/

/-- User-visible warning messages emitted through `App.set_warning`. -/
inductive Warning where
  | outOfAmmo (recharge : Bool)
  | overheated
  | dockedMsg
  | livesRemaining (n : ℤ)
  | insufficientPoints (cost : ℤ)
  | weaponsUpdated (cost : ℤ)
  | gameOverMsg
deriving DecidableEq, Repr

/-- The per-user game snapshot written by `App._save_gamedata` and read
back by `App._read_gamedata` / `App._on_restart` (the textual
"saved" timestamp is not modelled). -/
structure SaveData where
  gamestate : ℤ
  highscore : ℤ
  score : ℤ
  lives : ℤ
  level : ℤ
  shield : ℤ
  selected_wpn : ℕ
  weapons : List WpnEntry
deriving DecidableEq, Repr

namespace App

/-- The slice of the main `SpaceHunter` app state the core simulation
touches: sprite groups, UI flags, game state, and explicit logs of
emitted effects (explosions spawned, last warning, last snapshot
written). -/
structure State where
  width : ℝ
  height : ℝ
  weaponsGroup : List ProjSpawn
  enemyWeaponsGroup : List ProjSpawn
  spacejunkGroup : List SpaceJunk
  wreckageGroup : List WreckageState
  enemiesGroup : List Unit
  supplyParked : Bool
  doingArmoury : Bool
  doingComms : Bool
  doingSupply : Bool
  gamestate : ℤ
  highscore : ℤ
  explosions : List (Vec × ExplSize)
  warning : Option Warning
  savedData : Option SaveData

/-- `App.on_new_life`: empty all transient sprite groups, park the
supply ship and reset the UI flags (it also clears the player's
`docked` flag, which lives on the player record and is cleared by
`Player.getNewLife` below). -/
def onNewLife (a : State) : State :=
  { a with weaponsGroup := [], enemyWeaponsGroup := [], spacejunkGroup := [],
           wreckageGroup := [], enemiesGroup := [], supplyParked := true,
           doingArmoury := false, doingComms := false, doingSupply := false }

end App

/-! ## Player (`player.py`) -/

namespace Player

def LIMIT_SPEED : Bool := true

def MAX_SPEED : ℝ := 10

def MAX_REVERSE : ℝ := 5

def MAX_SIDEWAYS : ℝ := 5

def MIN_SPEED : ℝ := 0.1

def MAX_YAW : ℝ := 3

def MIN_YAW : ℝ := 0

def INERTIAL_DAMPING : Bool := true

def VEL_DAMPING : ℝ := 1

def YAW_DAMPING : ℝ := 5

def MAX_SHIELD : ℤ := 100

def MAX_WEAPONS : ℕ := 5

def WPN_COOLOFF_INT : ℤ := 3000

def WPN_COOLOFF_RATE : ℤ := 10

def REFRESH_AMMO : ℤ := 5000

def REFRESH_SHIELD : ℤ := 0

/-- The mutable state of the `Player` sprite.  `rectW`/`rectH` stand
for the sprite rect's width/height (image-derived in the source);
`rect.center` always tracks `pos`. -/
structure State where
  pos : Vec
  rot : ℝ
  vel : Vec
  acc : Vec
  velr : ℝ
  accr : ℝ
  radius : ℝ
  level : ℤ
  lives : ℤ
  score : ℤ
  shield : ℤ
  hidden : Bool
  hideTimer : ℤ
  lastAmmoRefresh : ℤ
  lastShieldRefresh : ℤ
  lastWpnCool : ℤ
  docked : Bool
  weaponsHot : Bool
  weapons : List WpnEntry
  selWeapon : ℕ
  rectW : ℝ
  rectH : ℝ

/-- The respawn-hiding preamble of `Player.update`: once hidden for
more than `NEW_LIFE_INT` ms, unhide and reposition at the bottom
centre of the display. -/
noncomputable def unhideStep (p : State) (now : ℤ) (width height : ℝ) : State :=
  if p.hidden = true ∧ now - p.hideTimer > NEW_LIFE_INT then
    { p with hideTimer := now, hidden := false,
             pos := ⟨width / 2 - p.rectW / 2, height - p.rectH⟩ }
  else p

/-- The "Update velocity vectors / position and orientation / inertial
damping" block of `Player.update`: integrate acceleration, clamp the
velocity componentwise relative to the player's orientation
(forward `MAX_SPEED`, reverse `MAX_REVERSE`, sideways `MAX_SIDEWAYS`),
clamp the yaw rate to `MAX_YAW`, integrate position and rotation, and
apply inertial damping. -/
noncomputable def kinematics (p : State) : State :=
  let vel1 := Vec.add p.vel p.acc
  let velr1 := p.velr + p.accr
  let rvel0 := vel1.rotateDeg (-p.rot)
  let st1 := if LIMIT_SPEED then
      let st1a := if rvel0.y < -MAX_SPEED then
          ((Vec.mk rvel0.x (-MAX_SPEED)), (Vec.mk rvel0.x (-MAX_SPEED)).rotateDeg p.rot)
        else (rvel0, vel1)
      let st1b := if st1a.1.y > MAX_REVERSE then
          ((Vec.mk st1a.1.x MAX_REVERSE), (Vec.mk st1a.1.x MAX_REVERSE).rotateDeg p.rot)
        else st1a
      if |st1b.1.x| > MAX_SIDEWAYS then
        let nx := if st1b.1.x > 0 then MAX_SIDEWAYS else -MAX_SIDEWAYS
        ((Vec.mk nx st1b.1.y), (Vec.mk nx st1b.1.y).rotateDeg p.rot)
      else st1b
    else (rvel0, vel1)
  let vel2 := st1.2
  let velr2 := if |velr1| > MAX_YAW then (if velr1 < 0 then -MAX_YAW else MAX_YAW) else velr1
  let pos1 := Vec.add p.pos vel2
  let rot1 := pmod (p.rot - velr2) 360
  let vel3 := if INERTIAL_DAMPING ∧ p.acc.len = 0 then
      Vec.smul (1 / (1 + VEL_DAMPING / 100)) vel2 else vel2
  let velr3 := if INERTIAL_DAMPING ∧ p.accr = 0 then velr2 / (1 + YAW_DAMPING / 100) else velr2
  let vel4 := if INERTIAL_DAMPING ∧ vel3.len < MIN_SPEED then Vec.mk 0 0 else vel3
  let velr4 := if INERTIAL_DAMPING ∧ |velr3| < MIN_YAW then 0 else velr3
  { p with vel := vel4, velr := velr4, pos := pos1, rot := rot1 }

/-- `Player.recharge_ammo`: on its interval, top up every
auto-replenishing weapon, capped at class capacity. -/
def rechargeAmmo (p : State) (now : ℤ) : State :=
  if now - p.lastAmmoRefresh > REFRESH_AMMO then
    { p with lastAmmoRefresh := now,
             weapons := p.weapons.map (fun w =>
               let stats := classStats w.wpn_class
               if stats.auto_replenish ≠ 0 then
                 let ammo := w.ammo + stats.auto_replenish
                 { w with ammo := if ammo > stats.capacity then stats.capacity else ammo }
               else w) }
  else p

/-- `Player.recharge_shield`: on its interval, regain one shield
point, capped at 100. -/
def rechargeShield (p : State) (now : ℤ) : State :=
  if now - p.lastShieldRefresh > REFRESH_SHIELD then
    { p with lastShieldRefresh := now,
             shield := if p.shield + 1 > 100 then 100 else p.shield + 1 }
  else p

/-- One weapon slot of the cool-off sweep in `Player.update`: drop the
temperature by `WPN_COOLOFF_RATE`, floored at 0. -/
def cooloffWpn (w : WpnEntry) : WpnEntry :=
  let t := w.temp - WPN_COOLOFF_RATE
  { w with temp := if t < 0 then 0 else t }

/-- The "Cool off any overheated weapons" block of `Player.update`:
on its interval, apply `cooloffWpn` to every slot of the payload. -/
def cooloffStep (p : State) (now : ℤ) : State :=
  if now - p.lastWpnCool > WPN_COOLOFF_INT then
    { p with lastWpnCool := now, weapons := p.weapons.map cooloffWpn }
  else p

/-- `Player.shoot`: fire the selected weapon.  Returns the new player
state, whether a round was fired, the spawned projectile (added by the
source to `app.weapons_group`), and any warning emitted.  The source
guard `len(self._weapons) >= self._sel_weapon` admits
`sel == len`, for which the subsequent indexing raises `IndexError`
(`Except.error`); a selection strictly beyond the list falls through
returning `False`. -/
noncomputable def shoot (p : State) :
    Except Unit (State × Bool × Option ProjSpawn × Option Warning) :=
  if p.weapons.length ≥ p.selWeapon then
    match p.weapons[p.selWeapon]? with
    | none => Except.error ()
    | some w =>
      if w.wpn_class = WpnClassName.Empty then Except.ok (p, false, none, none)
      else
        let stats := classStats w.wpn_class
        if stats.max_temp = 0 ∨ w.temp < stats.max_temp then
          if w.ammo > 0 then
            let proj := mkProjectile w.wpn_class PLAYER p.pos p.rot p.vel
            let w' : WpnEntry := { w with ammo := w.ammo - 1, temp := w.temp + 1 }
            let p' := { p with weapons := p.weapons.set p.selWeapon w' }
            Except.ok (p', true, some proj, none)
          else Except.ok (p, false, none,
            some (Warning.outOfAmmo (stats.auto_replenish != 0)))
        else Except.ok (p, false, none, some Warning.overheated)
  else Except.ok (p, false, none, none)

/-- `Player.hide`: hide the sprite while respawning, parking it below
the display with all motion zeroed. -/
noncomputable def hide (p : State) (width height : ℝ) (now : ℤ) : State :=
  { p with hidden := true, hideTimer := now, pos := ⟨width / 2, height + 200⟩,
           vel := ⟨0, 0⟩, acc := ⟨0, 0⟩, velr := 0, accr := 0, rot := 0 }

/-- `Player._check_in_play`: clamp the (unhidden) player inside the
display, zeroing the corresponding velocity component at an edge.  The
four conditions read the sprite rect positioned at the pre-clamp
`pos`. -/
noncomputable def checkInPlay (p : State) (width height : ℝ) : State :=
  if p.hidden then p
  else
    let st1 := if p.pos.x + p.rectW / 2 > width then ((0 : ℝ), width - p.rectW / 2)
               else (p.vel.x, p.pos.x)
    let st2 := if p.pos.x - p.rectW / 2 < 0 then ((0 : ℝ), p.rectW / 2) else st1
    let st3 := if p.pos.y + p.rectH / 2 > height then ((0 : ℝ), height - p.rectH / 2)
               else (p.vel.y, p.pos.y)
    let st4 := if p.pos.y - p.rectH / 2 < 0 then ((0 : ℝ), p.rectH / 2) else st3
    { p with vel := ⟨st2.1, st4.1⟩, pos := ⟨st2.2, st4.2⟩ }

end Player

/-! ## Save / restore (`app.py`) and the player death sequence -/

/-- `App._save_gamedata`: serialise the game and player state,
including the weapons payload as a list of
`(wpn_class, ammo, temp)` entries taken verbatim from
`Player.get_payload` (a deep copy, no recomputation). -/
def saveGamedata (a : App.State) (p : Player.State) : SaveData :=
  { gamestate := a.gamestate, highscore := a.highscore, score := p.score,
    lives := p.lives, level := p.level, shield := p.shield, selected_wpn := p.selWeapon,
    weapons := p.weapons.map (fun w =>
      { wpn_class := w.wpn_class, ammo := w.ammo, temp := w.temp }) }

/-- `Player.restore`: overwrite level, score, shield, lives and the
weapons payload from saved game data. -/
def Player.restore (p : Player.State) (level score shield lives : ℤ)
    (weapons : List WpnEntry) : Player.State :=
  { p with level := level, score := score, shield := shield, lives := lives,
           weapons := weapons }

/-- `App._on_restart`: rebuild the weapons list from the snapshot's
`weapons` entries, hand score/lives/level/shield and that list to
`Player.restore`, and resume playing.  (Note: the snapshot's
`selected_wpn` and `gamestate` fields are not consumed here.) -/
def App.onRestart (a : App.State) (p : Player.State) (gd : SaveData) :
    App.State × Player.State :=
  let weapons := gd.weapons.map (fun w =>
    ({ wpn_class := w.wpn_class, ammo := w.ammo, temp := w.temp } : WpnEntry))
  ({ a with gamestate := PLAYING },
   Player.restore p gd.level gd.score gd.shield gd.lives weapons)

/-- `App.on_gameover`: emit the game-over warning, move to the
`GAMEOVER` state and write the save file. -/
def App.onGameover (a : App.State) (p : Player.State) : App.State :=
  let a1 := { a with warning := some Warning.gameOverMsg, gamestate := GAMEOVER }
  { a1 with savedData := some (saveGamedata a1 p) }

/-- `Player._get_new_life`: hide the sprite, deduct a life, emit the
lives-remaining warning when lives remain, clear the transient sprite
groups via `App.on_new_life` (which also undocks the player), and
reset the shield to `MAX_SHIELD`. -/
noncomputable def Player.getNewLife (p : Player.State) (a : App.State) (now : ℤ) :
    Player.State × App.State :=
  let p1 := Player.hide p a.width a.height now
  let p2 := { p1 with lives := p1.lives - 1 }
  let a1 := if p2.lives > 0 then { a with warning := some (Warning.livesRemaining p2.lives) }
            else a
  let a2 := App.onNewLife a1
  let p3 := { p2 with docked := false }
  let p4 := { p3 with shield := Player.MAX_SHIELD }
  (p4, a2)

/-- `Player._check_health`: when the shield is depleted, spawn the
death explosion (and sound), respawn when lives remain, and trigger
game over when no lives remain after the check. -/
noncomputable def Player.checkHealth (p : Player.State) (a : App.State) (now : ℤ) :
    Player.State × App.State :=
  if p.shield ≤ 0 then
    let a1 := { a with explosions := a.explosions ++ [(p.pos, ExplSize.death)] }
    let st := if p.lives > 0 then Player.getNewLife p a1 now else (p, a1)
    if st.1.lives ≤ 0 then (st.1, App.onGameover st.2 st.1) else st
  else
    if p.lives ≤ 0 then (p, App.onGameover a p) else (p, a)

/-- `pygame.sprite.collide_circle`: two sprites collide iff the
distance between their centres is less than the sum of their collision
radii. -/
noncomputable def collideB (ppos : Vec) (pradius : ℝ) (qpos : Vec) (qradius : ℝ) : Bool :=
  @decide ((Vec.sub ppos qpos).len < pradius + qradius) (Classical.propDecidable _)

/-- One spacejunk hit of `Player._do_events`: objects of radius ≤ 3
are ignored as negligible; otherwise a small explosion is spawned, the
shield is reduced by the hit's damage rating, and an `Asteroid` hit
additionally disintegrates into the spacejunk group. -/
noncomputable def Player.junkHitStep (draws : ℕ → ℕ → DebrisDraws)
    (acc : ℤ × List SpaceJunk × List (Vec × ExplSize)) (kj : ℕ × SpaceJunk) :
    ℤ × List SpaceJunk × List (Vec × ExplSize) :=
  let k := kj.1
  let hit := kj.2
  if hit.radiusN > 3 then
    let shield1 := acc.1 - hit.damage
    let expl1 := acc.2.2 ++ [(hit.pos, ExplSize.sm)]
    match hit with
    | SpaceJunk.ast a =>
        let st := Asteroid.disintegrate a acc.2.1 (draws k)
        (shield1, st.1, expl1 ++ st.2)
    | SpaceJunk.deb _ => (shield1, acc.2.1, expl1)
  else acc

/-- `Player._do_events`: resolve this tick's collisions with the enemy
weapons, spacejunk and wreckage groups (each `spritecollide` with
`dokill=True` removes the hit sprites from its group; every collision
damages the shield independently and additively). -/
noncomputable def Player.doEvents (p : Player.State) (a : App.State)
    (draws : ℕ → ℕ → DebrisDraws) : Player.State × App.State :=
  let hits1 := a.enemyWeaponsGroup.filter (fun j => collideB p.pos p.radius j.pos j.radius)
  let rest1 := a.enemyWeaponsGroup.filter (fun j => !collideB p.pos p.radius j.pos j.radius)
  let shield1 := p.shield - (hits1.map ProjSpawn.damage).sum
  let expl1 := a.explosions ++ hits1.map (fun j => (j.pos, ExplSize.sm))
  let hits2 := a.spacejunkGroup.filter
    (fun j => collideB p.pos p.radius j.pos (j.radiusN : ℝ))
  let rest2 := a.spacejunkGroup.filter
    (fun j => !collideB p.pos p.radius j.pos (j.radiusN : ℝ))
  let f2 := hits2.enum.foldl (Player.junkHitStep draws) (shield1, rest2, [])
  let hits3 := a.wreckageGroup.filter
    (fun j => collideB p.pos p.radius j.pos (j.radius : ℝ))
  let rest3 := a.wreckageGroup.filter
    (fun j => !collideB p.pos p.radius j.pos (j.radius : ℝ))
  let big3 := hits3.filter (fun j => j.radius > 3)
  let shield3 := f2.1 - (big3.map (fun j => j.damage)).sum
  let expl3 := expl1 ++ f2.2.2 ++ big3.map (fun j => (j.pos, ExplSize.sm))
  ({ p with shield := shield3 },
   { a with enemyWeaponsGroup := rest1, spacejunkGroup := f2.2.1,
            wreckageGroup := rest3, explosions := expl3 })

/-- `Player.update`: the full per-tick player step, in source order —
unhide check, kinematic integration with clamps and damping, ammo and
shield replenishment intervals, the weapon cool-off interval, collision
events, the in-play clamp, and the health check. -/
noncomputable def Player.update (p : Player.State) (a : App.State) (now : ℤ)
    (draws : ℕ → ℕ → DebrisDraws) : Player.State × App.State :=
  let p1 := Player.unhideStep p now a.width a.height
  let p2 := Player.kinematics p1
  let p3 := if Player.REFRESH_AMMO ≠ 0 then Player.rechargeAmmo p2 now else p2
  let p4 := if Player.REFRESH_SHIELD ≠ 0 then Player.rechargeShield p3 now else p3
  let p5 := Player.cooloffStep p4 now
  let st := Player.doEvents p5 a draws
  let p6 := Player.checkInPlay st.1 a.width a.height
  Player.checkHealth p6 st.2 now

/-! ## Armoury (`armoury.py`) -/

namespace Armoury

/-- `Armoury.WPN_CLASSES`: the classes offered for trading. -/
def WPN_CLASSES : List WpnClassName :=
  [WpnClassName.Empty, WpnClassName.Laser, WpnClassName.UltraLaser, WpnClassName.Gatling,
   WpnClassName.Missile, WpnClassName.Sidewinder, WpnClassName.Mine]

/-- The armoury panel's trading state: the provisional payload being
edited, the original payload it started from, and the selected slots
and running cost. -/
structure State where
  payload : List WpnEntry
  origPayload : List WpnEntry
  selArmoury : ℕ
  selPayload : ℕ
  cost : ℤ
deriving DecidableEq, Repr

/-- `Armoury.set_payload`: copy the player's payload into the panel. -/
def setPayload (st : State) (p : Player.State) : State :=
  { st with origPayload := p.weapons, payload := p.weapons, cost := 0 }

/-- The loop body of `Armoury._calc_cost` over the indexed payload
(only the selected slot contributes; `orig[i]` raises `IndexError`
when the original payload is shorter). -/
def calcCostAux (orig : List WpnEntry) (sel : ℕ) : ℕ → List WpnEntry → Except Unit ℤ
  | _, [] => Except.ok 0
  | i, w :: rest =>
      if i = sel then
        match orig[i]? with
        | none => Except.error ()
        | some ow =>
            let stats := classStats w.wpn_class
            let itemcost := if w.wpn_class = ow.wpn_class then
                stats.ammo_cost * (stats.capacity - ow.ammo)
              else stats.wpn_cost
            (calcCostAux orig sel (i + 1) rest).map (fun c => itemcost + c)
      else calcCostAux orig sel (i + 1) rest

/-- `Armoury._calc_cost`: the cost of the provisional payload edit — a
changed class costs the new class's weapon cost; an unchanged class is
a reload costing `ammo_cost * (capacity - original ammo)`; there are
no refunds for downgrades. -/
def calcCost (st : State) : Except Unit ℤ := calcCostAux st.origPayload st.selPayload 0 st.payload

/-- `Armoury._on_apply`: provisionally put the selected armoury class
in the selected payload slot with a full ammo load, and recompute the
cost. -/
def onApply (st : State) : Except Unit State :=
  match WPN_CLASSES[st.selArmoury]? with
  | none => Except.error ()
  | some newCls =>
      match st.payload[st.selPayload]? with
      | none => Except.error ()
      | some w =>
          let w' : WpnEntry :=
            { w with wpn_class := newCls, ammo := (classStats newCls).capacity }
          let payload1 := st.payload.set st.selPayload w'
          match calcCost { st with payload := payload1 } with
          | Except.error e => Except.error e
          | Except.ok c => Except.ok { st with payload := payload1, cost := c }

/-- `Armoury._on_save`: commit the provisional payload.  When the cost
exceeds the player's score the transaction is rejected with a warning
and nothing changes; otherwise the cost is deducted, the payload
replaces the player's, and the panel closes (`_on_quit` resets the
running cost). -/
def onSave (st : State) (a : App.State) (p : Player.State) :
    State × App.State × Player.State :=
  if st.cost > p.score then
    (st, { a with warning := some (Warning.insufficientPoints st.cost) }, p)
  else
    let p1 := { p with score := p.score - st.cost }
    let p2 := { p1 with weapons := st.payload }
    let a1 := { a with warning := some (Warning.weaponsUpdated st.cost),
                       doingArmoury := false }
    ({ st with cost := 0 }, a1, p2)

end Armoury

/-! ## Fire/cool-down operation sequences (for the heat invariant) -/

/-- An operation acting on the player's weapon bays: a fire command or
a cool-off tick at time `now`. -/
inductive WpnOp where
  | fire
  | cool (now : ℤ)

/-- Apply a single weapon-bay operation. -/
noncomputable def applyWpnOp (p : Player.State) : WpnOp → Except Unit Player.State
  | WpnOp.fire => (Player.shoot p).map (fun r => r.1)
  | WpnOp.cool now => Except.ok (Player.cooloffStep p now)

/-- Run a sequence of weapon-bay operations. -/
noncomputable def runWpnOps (p : Player.State) : List WpnOp → Except Unit Player.State
  | [] => Except.ok p
  | op :: rest =>
      match applyWpnOp p op with
      | Except.error e => Except.error e
      | Except.ok p1 => runWpnOps p1 rest

/-- The heat invariant of a payload: every slot's temperature is
nonnegative, and bounded by the class's `max_temp` whenever that limit
is nonzero. -/
def heatInv (ws : List WpnEntry) : Prop :=
  ∀ w ∈ ws, 0 ≤ w.temp ∧
    ((classStats w.wpn_class).max_temp ≠ 0 → w.temp ≤ (classStats w.wpn_class).max_temp)

/-! ## Concrete states used to instantiate the theorems -/

/-- A concrete player: the constructor state of `Player.__init__` with
the default payload, centred in the display. -/
noncomputable def basePlayer : Player.State where
  pos := ⟨400, 300⟩
  rot := 0
  vel := ⟨0, 0⟩
  acc := ⟨0, 0⟩
  velr := 0
  accr := 0
  radius := 20
  level := 0
  lives := LIVES
  score := 0
  shield := Player.MAX_SHIELD
  hidden := false
  hideTimer := 0
  lastAmmoRefresh := 0
  lastShieldRefresh := 0
  lastWpnCool := 0
  docked := false
  weaponsHot := false
  weapons := [⟨WpnClassName.Empty, 0, 0⟩, ⟨WpnClassName.Laser, 100, 0⟩]
  selWeapon := 0
  rectW := 40
  rectH := 40

/-- A concrete app state: an empty arena. -/
noncomputable def baseApp : App.State where
  width := 800
  height := 600
  weaponsGroup := []
  enemyWeaponsGroup := []
  spacejunkGroup := []
  wreckageGroup := []
  enemiesGroup := []
  supplyParked := false
  doingArmoury := false
  doingComms := false
  doingSupply := false
  gamestate := PLAYING
  highscore := 0
  explosions := []
  warning := none
  savedData := none

/-! ## Theorems -/


theorem Vec.len_nonneg (v : Vec) : 0 ≤ v.len := Real.sqrt_nonneg _

theorem Vec.len_smul (c : ℝ) (v : Vec) : (Vec.smul c v).len = |c| * v.len := by
  unfold Vec.len Vec.smul
  simp only
  rw [mul_pow, mul_pow, ← mul_add, Real.sqrt_mul (sq_nonneg c), Real.sqrt_sq_eq_abs]

theorem Vec.len_eq_zero_iff (v : Vec) : v.len = 0 ↔ v.x ^ 2 + v.y ^ 2 = 0 := by
  unfold Vec.len
  constructor
  · intro h
    have h2 : 0 ≤ v.x ^ 2 + v.y ^ 2 := by positivity
    have := Real.sqrt_eq_zero h2 |>.mp h
    exact this
  · intro h
    rw [h, Real.sqrt_zero]

theorem Vec.len_scaleToLength (v : Vec) (m : ℝ) (hm : 0 ≤ m) (hv : 0 < v.len) :
    (Vec.scaleToLength v m).len = m := by
  unfold Vec.scaleToLength
  rw [Vec.len_smul, abs_of_nonneg (div_nonneg hm (le_of_lt hv)), div_mul_cancel₀]
  exact ne_of_gt hv

theorem Vec.len_zero : (Vec.mk 0 0).len = 0 := by
  unfold Vec.len
  norm_num

/-- Folding the nearest-sprite step from a `some` accumulator yields a
`some` whose sprite is the accumulator's or a member of the list. -/
theorem Automaton.foldl_nearestStep_some (pos : Vec) (g : List SpriteRef) (b : SpriteRef × ℝ) :
    ∃ b', List.foldl (Automaton.nearestStep pos) (some b) g = some b' ∧ (b'.1 = b.1 ∨ b'.1 ∈ g) := by
  induction g generalizing b with
  | nil => exact ⟨b, rfl, Or.inl rfl⟩
  | cons t rest ih =>
    simp only [List.foldl_cons]
    by_cases hlt : (Vec.sub pos t.pos).len < b.2
    · obtain ⟨b', hb', hmem⟩ := ih (t, (Vec.sub pos t.pos).len)
      refine ⟨b', ?_, ?_⟩
      · simpa [Automaton.nearestStep, hlt] using hb'
      · rcases hmem with h | h
        · exact Or.inr (by simp [h])
        · exact Or.inr (List.mem_cons_of_mem _ h)
    · obtain ⟨b', hb', hmem⟩ := ih b
      refine ⟨b', ?_, ?_⟩
      · simpa [Automaton.nearestStep, hlt] using hb'
      · rcases hmem with h | h
        · exact Or.inl h
        · exact Or.inr (List.mem_cons_of_mem _ h)

/-- A nonempty sprite group always resolves to one of its members. -/
theorem Automaton.getTargetSprite_mem (pos : Vec) (g : List SpriteRef) (hg : g ≠ []) :
    ∃ t, t ∈ g ∧ Automaton.getTargetSprite pos g = some t := by
  match g, hg with
  | t :: rest, _ =>
    have hstep : Automaton.nearestStep pos none t = some (t, (Vec.sub pos t.pos).len) := rfl
    obtain ⟨b', hb', hmem⟩ := Automaton.foldl_nearestStep_some pos rest (t, (Vec.sub pos t.pos).len)
    refine ⟨b'.1, ?_, ?_⟩
    · rcases hmem with h | h
      · simp [h]
      · exact List.mem_cons_of_mem _ h
    · unfold getTargetSprite
      simp [hstep, hb']

/-- C1: on each tick instincts are tested in the fixed order FLEE,
SEEK, WANDER, PASSIVE and the first flagged instinct whose target
resolves fully determines the tick's acceleration: (1) a resolved FLEE
commits the flee steering force and leaves the seek state untouched
(SEEK is not evaluated); (2) with FLEE unresolved, a resolved SEEK
commits the seek steering force; (3) with FLEE and SEEK both flagged
but unresolved, WANDER commits its steering; (4) with FLEE and SEEK
unresolved and no WANDER flag, PASSIVE is the terminal fallback that
always resolves, restoring the initial acceleration. -/
theorem spacehunter_c1_instinct_precedence (s : Automaton.State) (now : ℤ) (draw : ℝ) :
    (∀ p : Vec, s.instinct &&& Automaton.FLEE ≠ 0 →
      Automaton.getTargetPos s.pos s.fleeTarget = Except.ok (some p) →
      Automaton.applyInstinct s now draw =
        Except.ok { s with acc := Automaton.fleeSteerCalc s.pos s.vel s.maxvel p,
                           fleeTargetPos := some p }) ∧
    (∀ q : Vec, s.instinct &&& Automaton.FLEE ≠ 0 →
      Automaton.getTargetPos s.pos s.fleeTarget = Except.ok none →
      s.instinct &&& Automaton.SEEK ≠ 0 →
      Automaton.getTargetPos s.pos s.seekTarget = Except.ok (some q) →
      Automaton.applyInstinct s now draw =
        Except.ok { s with acc := Automaton.seekSteerCalc s.pos s.vel s.maxvel q,
                           fleeTargetPos := none, seekTargetPos := some q }) ∧
    (s.instinct &&& Automaton.FLEE ≠ 0 →
      Automaton.getTargetPos s.pos s.fleeTarget = Except.ok none →
      s.instinct &&& Automaton.SEEK ≠ 0 →
      Automaton.getTargetPos s.pos s.seekTarget = Except.ok none →
      s.instinct &&& Automaton.WANDER ≠ 0 →
      Automaton.applyInstinct s now draw =
        Except.ok { s with acc := Automaton.seekSteerCalc s.pos s.vel s.maxvel
                                    (Automaton.wanderTarget s now draw),
                           fleeTargetPos := none,
                           seekTargetPos := some (Automaton.wanderTarget s now draw),
                           seekTarget := some (Target.vec (Automaton.wanderTarget s now draw)),
                           wanderVec := Automaton.wanderVecNew s now draw,
                           lastWander := if now - s.lastWander > Automaton.WANDER_INT then now
                                         else s.lastWander }) ∧
    (s.instinct &&& Automaton.FLEE ≠ 0 →
      Automaton.getTargetPos s.pos s.fleeTarget = Except.ok none →
      s.instinct &&& Automaton.SEEK ≠ 0 →
      Automaton.getTargetPos s.pos s.seekTarget = Except.ok none →
      s.instinct &&& Automaton.WANDER = 0 →
      s.instinct &&& Automaton.PASSIVE ≠ 0 →
      Automaton.applyInstinct s now draw =
        Except.ok { s with acc := s.initAcc, accr := 0,
                           fleeTargetPos := none, seekTargetPos := none }) := by
  refine ⟨?_, ?_, ?_, ?_⟩
  · intro p hF hfp
    simp [Automaton.applyInstinct, Automaton.fleeRun, hF, hfp]
  · intro q hF hfp hS hsp
    simp [Automaton.applyInstinct, Automaton.fleeRun, Automaton.afterFlee,
          Automaton.seekRun, hF, hfp, hS, hsp]
  · intro hF hfp hS hsp hW
    simp only [Automaton.applyInstinct, Automaton.fleeRun, hF, hfp, ne_eq,
      not_false_eq_true, if_true, Option.isSome_none, Bool.false_eq_true, if_false]
    simp only [Automaton.afterFlee, Automaton.seekRun, hS]
    simp only [show Automaton.getTargetPos s.pos
        ({ s with acc := Vec.mk 0 0, fleeTargetPos := none : Automaton.State }).seekTarget =
        Except.ok none from hsp]
    simp [Automaton.afterSeek, Automaton.wanderRun, Automaton.seekRun, hW,
          Automaton.getTargetPos, Automaton.wanderTarget, Automaton.wanderVecNew,
          Automaton.wanderFuture]
  · intro hF hfp hS hsp hnW hP
    simp only [Automaton.applyInstinct, Automaton.fleeRun, hF, hfp, ne_eq,
      not_false_eq_true, if_true, Option.isSome_none, Bool.false_eq_true, if_false]
    simp only [Automaton.afterFlee, Automaton.seekRun, hS]
    simp only [show Automaton.getTargetPos s.pos
        ({ s with acc := Vec.mk 0 0, fleeTargetPos := none : Automaton.State }).seekTarget =
        Except.ok none from hsp]
    simp [Automaton.afterSeek, hS, hnW, hP]

/-- Witness for C1: concrete actors exercising all four precedence
conclusions. -/
theorem spacehunter_c1_witness :
    (Automaton.applyInstinct
        { baseAuto with instinct := 3, fleeTarget := some (Target.vec ⟨1, 2⟩),
                        seekTarget := some (Target.vec ⟨5, 6⟩) } 0 0 =
      Except.ok { { baseAuto with instinct := 3, fleeTarget := some (Target.vec ⟨1, 2⟩),
                                  seekTarget := some (Target.vec ⟨5, 6⟩) } with
                  acc := Automaton.fleeSteerCalc baseAuto.pos baseAuto.vel baseAuto.maxvel ⟨1, 2⟩,
                  fleeTargetPos := some ⟨1, 2⟩ }) ∧
    (Automaton.applyInstinct
        { baseAuto with instinct := 3, fleeTarget := some (Target.group []),
                        seekTarget := some (Target.vec ⟨5, 6⟩) } 0 0 =
      Except.ok { { baseAuto with instinct := 3, fleeTarget := some (Target.group []),
                                  seekTarget := some (Target.vec ⟨5, 6⟩) } with
                  acc := Automaton.seekSteerCalc baseAuto.pos baseAuto.vel baseAuto.maxvel ⟨5, 6⟩,
                  fleeTargetPos := none, seekTargetPos := some ⟨5, 6⟩ }) ∧
    (Automaton.applyInstinct
        { baseAuto with instinct := 7, fleeTarget := some (Target.group []),
                        seekTarget := some (Target.group []) } 0 0 =
      Except.ok { { baseAuto with instinct := 7, fleeTarget := some (Target.group []),
                                  seekTarget := some (Target.group []) } with
                  acc := Automaton.seekSteerCalc baseAuto.pos baseAuto.vel baseAuto.maxvel
                    (Automaton.wanderTarget
                      { baseAuto with instinct := 7, fleeTarget := some (Target.group []),
                                      seekTarget := some (Target.group []) } 0 0),
                  fleeTargetPos := none,
                  seekTargetPos := some (Automaton.wanderTarget
                      { baseAuto with instinct := 7, fleeTarget := some (Target.group []),
                                      seekTarget := some (Target.group []) } 0 0),
                  seekTarget := some (Target.vec (Automaton.wanderTarget
                      { baseAuto with instinct := 7, fleeTarget := some (Target.group []),
                                      seekTarget := some (Target.group []) } 0 0)),
                  wanderVec := Automaton.wanderVecNew
                      { baseAuto with instinct := 7, fleeTarget := some (Target.group []),
                                      seekTarget := some (Target.group []) } 0 0,
                  lastWander := if (0 : ℤ) - baseAuto.lastWander > Automaton.WANDER_INT then 0
                                else baseAuto.lastWander }) ∧
    (Automaton.applyInstinct
        { baseAuto with instinct := 11, fleeTarget := some (Target.group []),
                        seekTarget := some (Target.group []) } 0 0 =
      Except.ok { { baseAuto with instinct := 11, fleeTarget := some (Target.group []),
                                  seekTarget := some (Target.group []) } with
                  acc := baseAuto.initAcc, accr := 0,
                  fleeTargetPos := none, seekTargetPos := none }) := by
  refine ⟨?_, ?_, ?_, ?_⟩
  · exact (spacehunter_c1_instinct_precedence _ 0 0).1 ⟨1, 2⟩ (by decide) rfl
  · exact (spacehunter_c1_instinct_precedence _ 0 0).2.1 ⟨5, 6⟩ (by decide) rfl (by decide) rfl
  · exact (spacehunter_c1_instinct_precedence _ 0 0).2.2.1 (by decide) rfl (by decide) rfl
      (by decide)
  · exact (spacehunter_c1_instinct_precedence _ 0 0).2.2.2 (by decide) rfl (by decide) rfl
      (by decide) (by decide)

/-- C10: `_get_target_pos` resolves exactly three target shapes — a
fixed vector, a single sprite, or a sprite group (returning `none` only
when the group is empty, and a member's position otherwise) — and for
any other target value (a `None` target) no branch assigns a result, so
the method raises and the per-tick update faults instead of falling
through to the next instinct, both when FLEE is flagged with no flee
target and when SEEK is flagged with no seek target. -/
theorem spacehunter_c10_target_resolution (pos : Vec) (v : Vec) (sp : SpriteRef)
    (g : List SpriteRef) (s : Automaton.State) (now : ℤ) (draw : ℝ) (w h : ℝ) :
    Automaton.getTargetPos pos (some (Target.vec v)) = Except.ok (some v) ∧
    Automaton.getTargetPos pos (some (Target.sprite sp)) = Except.ok (some sp.pos) ∧
    Automaton.getTargetPos pos (some (Target.group [])) = Except.ok none ∧
    (g ≠ [] → ∃ t, t ∈ g ∧
      Automaton.getTargetPos pos (some (Target.group g)) = Except.ok (some t.pos)) ∧
    Automaton.getTargetPos pos none = Except.error () ∧
    (s.instinct &&& Automaton.FLEE ≠ 0 → s.fleeTarget = none →
      Automaton.update s now draw w h = Except.error ()) ∧
    (s.instinct &&& Automaton.FLEE = 0 → s.instinct &&& Automaton.SEEK ≠ 0 →
      s.seekTarget = none → Automaton.update s now draw w h = Except.error ()) := by
  refine ⟨rfl, rfl, rfl, ?_, rfl, ?_, ?_⟩
  · intro hg
    obtain ⟨t, htg, ht⟩ := Automaton.getTargetSprite_mem pos g hg
    exact ⟨t, htg, by simp [Automaton.getTargetPos, ht]⟩
  · intro hF hft
    simp [Automaton.update, Automaton.applyInstinct, Automaton.fleeRun,
          Automaton.getTargetPos, hF, hft]
  · intro hnF hS hst
    simp [Automaton.update, Automaton.applyInstinct, Automaton.afterFlee,
          Automaton.seekRun, Automaton.getTargetPos, hnF, hS, hst]

/-- Witness for C10: a concrete nonempty group resolving to its
member, and two concrete actors whose update faults on a `None`
target. -/
theorem spacehunter_c10_witness :
    (∃ t, t ∈ [(⟨⟨9, 9⟩⟩ : SpriteRef)] ∧
      Automaton.getTargetPos ⟨0, 0⟩ (some (Target.group [⟨⟨9, 9⟩⟩])) =
        Except.ok (some t.pos)) ∧
    Automaton.update { baseAuto with instinct := 2 } 0 0 800 600 = Except.error () ∧
    Automaton.update { baseAuto with instinct := 1 } 0 0 800 600 = Except.error () := by
  refine ⟨?_, ?_, ?_⟩
  · exact (spacehunter_c10_target_resolution ⟨0, 0⟩ ⟨3, 4⟩ ⟨⟨7, 8⟩⟩ [⟨⟨9, 9⟩⟩]
      baseAuto 0 0 800 600).2.2.2.1 (List.cons_ne_nil _ _)
  · exact (spacehunter_c10_target_resolution ⟨0, 0⟩ ⟨3, 4⟩ ⟨⟨7, 8⟩⟩ [⟨⟨9, 9⟩⟩]
      { baseAuto with instinct := 2 } 0 0 800 600).2.2.2.2.2.1 (by decide) rfl
  · exact (spacehunter_c10_target_resolution ⟨0, 0⟩ ⟨3, 4⟩ ⟨⟨9, 9⟩⟩ [⟨⟨9, 9⟩⟩]
      { baseAuto with instinct := 1 } 0 0 800 600).2.2.2.2.2.2 (by decide) (by decide) rfl

theorem Automaton.afterSeek_kin (s : Automaton.State) (now : ℤ) (draw : ℝ)
    (s' : Automaton.State) (h : Automaton.afterSeek s now draw = Except.ok s') :
    s'.vel = s.vel ∧ s'.velr = s.velr ∧ s'.maxvel = s.maxvel ∧ s'.maxvelr = s.maxvelr := by
  unfold Automaton.afterSeek Automaton.wanderRun at h
  split at h
  · split at h
    · exact absurd h (by simp)
    · rename_i heq
      cases h
      cases heq
      simp
  · split at h
    · cases h
      simp
    · cases h
      simp

theorem Automaton.afterFlee_kin (s : Automaton.State) (now : ℤ) (draw : ℝ)
    (s' : Automaton.State) (h : Automaton.afterFlee s now draw = Except.ok s') :
    s'.vel = s.vel ∧ s'.velr = s.velr ∧ s'.maxvel = s.maxvel ∧ s'.maxvelr = s.maxvelr := by
  unfold Automaton.afterFlee at h
  split at h
  · split at h
    · exact absurd h (by simp)
    · split at h
      · cases h
        simp
      · have hk := Automaton.afterSeek_kin _ now draw s' h
        simpa using hk
  · exact Automaton.afterSeek_kin _ now draw s' h

theorem Automaton.applyInstinct_kin (s : Automaton.State) (now : ℤ) (draw : ℝ)
    (s' : Automaton.State) (h : Automaton.applyInstinct s now draw = Except.ok s') :
    s'.vel = s.vel ∧ s'.velr = s.velr ∧ s'.maxvel = s.maxvel ∧ s'.maxvelr = s.maxvelr := by
  unfold Automaton.applyInstinct at h
  split at h
  · split at h
    · exact absurd h (by simp)
    · split at h
      · cases h
        simp
      · have hk := Automaton.afterFlee_kin _ now draw s' h
        simpa using hk
  · exact Automaton.afterFlee_kin _ now draw s' h

/-- C2 (amended): after each integration step of `Automaton.update`
the automaton's speed is clamped to `maxvel` and its angular velocity
to `[-maxvelr, maxvelr]`; the Player's integration step clamps its
angular velocity to `[-MAX_YAW, MAX_YAW]`, but clamps linear velocity
componentwise relative to its orientation rather than by magnitude
(see the counterexample theorem for the magnitude bound failing). -/
theorem spacehunter_c2_clamp (s : Automaton.State) (now : ℤ) (draw : ℝ) (w h : ℝ)
    (s' : Automaton.State) (hu : Automaton.update s now draw w h = Except.ok s')
    (h1 : 0 ≤ s.maxvel) (h2 : 0 ≤ s.maxvelr) (p : Player.State) :
    s'.vel.len ≤ s.maxvel ∧ |s'.velr| ≤ s.maxvelr ∧
      |(Player.kinematics p).velr| ≤ Player.MAX_YAW := by
  have hauto : s'.vel.len ≤ s.maxvel ∧ |s'.velr| ≤ s.maxvelr := by
    unfold Automaton.update at hu
    split at hu
    · exact absurd hu (by simp)
    · rename_i s1 heq
      obtain ⟨hv, hvr, hm, hmr⟩ := Automaton.applyInstinct_kin s now draw s1 heq
      cases hu
      constructor
      · simp only
        split_ifs with hgt
        · rw [Vec.len_scaleToLength _ _ (hm ▸ h1) (lt_of_le_of_lt (hm ▸ h1) hgt), hm]
        · rw [hm] at hgt
          exact le_of_not_lt hgt
      · simp only
        split_ifs with hgt hneg
        · rw [abs_neg, abs_of_nonneg (hmr ▸ h2)]
          exact le_of_eq hmr
        · rw [abs_of_nonneg (hmr ▸ h2), hmr]
        · rw [← hmr]
          exact le_of_not_lt hgt
  refine ⟨hauto.1, hauto.2, ?_⟩
  unfold Player.kinematics
  simp only [Player.INERTIAL_DAMPING, Player.MIN_YAW, Player.MAX_YAW, Player.YAW_DAMPING,
    Player.LIMIT_SPEED]
  set velr1 := p.velr + p.accr with hvelr1
  have habs : |if |velr1| > 3 then (if velr1 < 0 then (-3 : ℝ) else 3) else velr1| ≤ 3 := by
    split_ifs with hgt hneg
    · norm_num
    · norm_num
    · exact le_of_not_lt hgt
  set velr2 := if |velr1| > 3 then (if velr1 < 0 then (-3 : ℝ) else 3) else velr1 with hvelr2
  have hstep : ∀ q : ℝ, |q| ≤ 3 → |if p.accr = 0 then q / (1 + 5 / 100) else q| ≤ 3 := by
    intro q hq
    split_ifs
    · rw [abs_div, abs_of_pos (by norm_num : (0 : ℝ) < 1 + 5 / 100)]
      exact (div_le_self (abs_nonneg q) (by norm_num)).trans hq
    · exact hq
  simp only [true_and]
  have h3 := hstep velr2 habs
  by_cases hacc : p.accr = 0
  · rw [if_pos hacc] at h3 ⊢
    split_ifs with hlt
    · norm_num
    · exact h3
  · rw [if_neg hacc] at h3 ⊢
    split_ifs with hlt
    · norm_num
    · exact h3

theorem spacehunter_c2_update_passive :
    Automaton.update { baseAuto with faceDirOfTravel := false } 0 0 800 600 =
      Except.ok { baseAuto with faceDirOfTravel := false } := by
  simp only [Automaton.update, Automaton.applyInstinct, Automaton.afterFlee,
    Automaton.afterSeek, baseAuto, Automaton.PASSIVE, Automaton.FLEE, Automaton.SEEK,
    Automaton.WANDER, Automaton.MAX_SPEED, Automaton.MAX_VELR, Automaton.MAX_HEALTH]
  norm_num [Vec.add, Vec.len, Real.sqrt_zero, show (8 : ℕ) &&& 2 = 0 from rfl,
    show (8 : ℕ) &&& 1 = 0 from rfl, show (8 : ℕ) &&& 4 = 0 from rfl,
    show (8 : ℕ) &&& 8 = 8 from rfl, pmod]

/-- Witness for C2 (amended): a concrete passive automaton satisfies
the clamp conclusion, and a concrete player satisfies the yaw
clamp. -/
theorem spacehunter_c2_witness :
    Automaton.update { baseAuto with faceDirOfTravel := false } 0 0 800 600 =
        Except.ok { baseAuto with faceDirOfTravel := false } ∧
    (0 : ℝ) ≤ { baseAuto with faceDirOfTravel := false : Automaton.State }.maxvel ∧
    (0 : ℝ) ≤ { baseAuto with faceDirOfTravel := false : Automaton.State }.maxvelr ∧
    (({ baseAuto with faceDirOfTravel := false : Automaton.State }.vel.len ≤
        { baseAuto with faceDirOfTravel := false : Automaton.State }.maxvel) ∧
      |{ baseAuto with faceDirOfTravel := false : Automaton.State }.velr| ≤
        { baseAuto with faceDirOfTravel := false : Automaton.State }.maxvelr ∧
      |(Player.kinematics basePlayer).velr| ≤ Player.MAX_YAW) :=
  ⟨spacehunter_c2_update_passive,
   by norm_num [baseAuto, Automaton.MAX_SPEED],
   by norm_num [baseAuto, Automaton.MAX_VELR],
   spacehunter_c2_clamp _ 0 0 800 600 _ spacehunter_c2_update_passive
     (by norm_num [baseAuto, Automaton.MAX_SPEED])
     (by norm_num [baseAuto, Automaton.MAX_VELR]) basePlayer⟩

theorem sqrt125_pos : (0 : ℝ) < Real.sqrt 125 := by positivity

theorem c2_player_eval :
    Player.update { basePlayer with acc := ⟨5, -10⟩ } baseApp 0 (fun _ _ => ⟨0, 0, 0, 0⟩) =
      ({ basePlayer with acc := ⟨5, -10⟩, vel := ⟨5, -10⟩, pos := ⟨405, 290⟩ }, baseApp) := by
  have hne : Real.sqrt 125 ≠ 0 := ne_of_gt sqrt125_pos
  have hone : (1 : ℝ) ≤ Real.sqrt 125 := by
    rw [show (1 : ℝ) = Real.sqrt 1 by rw [Real.sqrt_one]]
    exact Real.sqrt_le_sqrt (by norm_num)
  have hge : ¬ (Real.sqrt 125 < 1 / 10) := by
    push_neg
    linarith
  simp only [Player.update, Player.unhideStep, Player.kinematics, Player.rechargeAmmo,
    Player.rechargeShield, Player.cooloffStep, Player.doEvents, Player.junkHitStep,
    Player.checkInPlay, Player.checkHealth, Player.getNewLife, App.onGameover,
    Player.LIMIT_SPEED, Player.INERTIAL_DAMPING, Player.MAX_SPEED, Player.MAX_REVERSE,
    Player.MAX_SIDEWAYS, Player.MIN_SPEED, Player.MAX_YAW, Player.MIN_YAW,
    Player.VEL_DAMPING, Player.YAW_DAMPING, Player.REFRESH_AMMO, Player.REFRESH_SHIELD,
    Player.WPN_COOLOFF_INT, Player.MAX_SHIELD, LIVES, NEW_LIFE_INT, basePlayer, baseApp,
    PLAYING, Vec.add, Vec.rotateDeg, Vec.smul, Vec.len, pmod]
  norm_num [Real.cos_zero, Real.sin_zero, hne, hge]

/-- Counterexample for C2 as stated: after a full player update tick
from rest with thrust-and-strafe acceleration `(5, -10)`, the player's
speed is `√125 > 10 = MAX_SPEED`, exceeding its maximum linear speed —
the player's clamp is per-axis, not by magnitude. -/
theorem spacehunter_c2_counterexample :
    ¬ (((Player.update { basePlayer with acc := ⟨5, -10⟩ } baseApp 0
          (fun _ _ => ⟨0, 0, 0, 0⟩)).1.vel).len ≤ Player.MAX_SPEED) := by
  rw [c2_player_eval]
  simp only [Player.MAX_SPEED, Vec.len]
  push_neg
  rw [show ((5 : ℝ) ^ 2 + (-10 : ℝ) ^ 2) = 125 by norm_num]
  rw [show (10 : ℝ) = Real.sqrt 100 by
    rw [show (100 : ℝ) = 10 ^ 2 by norm_num, Real.sqrt_sq (by norm_num)]]
  exact Real.sqrt_lt_sqrt (by norm_num) (by norm_num)

/-- C3: `Player.shoot` returns not-fired with the weapon bay unchanged
when the selected slot is the Empty class, or overheated
(`max_temp ≤ heat` with `max_temp ≠ 0`, emitting the overheated
warning), or out of ammo (emitting the out-of-ammunition warning); with
ammo 0 any number of fire calls leaves the player state unchanged and
spawns nothing, so ammo never becomes negative; on success it spawns
exactly one projectile with the weapon class's kinematics, decrements
the slot's ammo by 1 and increments its heat by 1, returning fired. -/
theorem spacehunter_c3_fire_contract (p : Player.State) (w : WpnEntry)
    (hw : p.weapons[p.selWeapon]? = some w) :
    (w.wpn_class = WpnClassName.Empty →
      Player.shoot p = Except.ok (p, false, none, none)) ∧
    (w.wpn_class ≠ WpnClassName.Empty → (classStats w.wpn_class).max_temp ≠ 0 →
      (classStats w.wpn_class).max_temp ≤ w.temp →
      Player.shoot p = Except.ok (p, false, none, some Warning.overheated)) ∧
    (w.wpn_class ≠ WpnClassName.Empty →
      ((classStats w.wpn_class).max_temp = 0 ∨ w.temp < (classStats w.wpn_class).max_temp) →
      w.ammo = 0 →
      Player.shoot p = Except.ok (p, false, none,
        some (Warning.outOfAmmo ((classStats w.wpn_class).auto_replenish != 0)))) ∧
    (w.wpn_class ≠ WpnClassName.Empty →
      ((classStats w.wpn_class).max_temp = 0 ∨ w.temp < (classStats w.wpn_class).max_temp) →
      0 < w.ammo →
      Player.shoot p = Except.ok
        ({ p with weapons :=
             p.weapons.set p.selWeapon ⟨w.wpn_class, w.ammo - 1, w.temp + 1⟩ },
         true, some (mkProjectile w.wpn_class PLAYER p.pos p.rot p.vel), none)) ∧
    (w.ammo = 0 → ∃ warn, Player.shoot p = Except.ok (p, false, none, warn)) ∧
    (w.ammo = 0 → ∀ n, runWpnOps p (List.replicate n WpnOp.fire) = Except.ok p) := by
  have hlen : p.weapons.length ≥ p.selWeapon :=
    le_of_lt (List.getElem?_eq_some.mp hw).1
  have hfire0 : w.ammo = 0 → ∃ warn, Player.shoot p = Except.ok (p, false, none, warn) := by
    intro ha
    by_cases he : w.wpn_class = WpnClassName.Empty
    · exact ⟨none, by simp [Player.shoot, hlen, hw, he]⟩
    · by_cases ht : (classStats w.wpn_class).max_temp = 0 ∨
        w.temp < (classStats w.wpn_class).max_temp
      · refine ⟨some (Warning.outOfAmmo ((classStats w.wpn_class).auto_replenish != 0)), ?_⟩
        simp [Player.shoot, hlen, hw, he, ht, ha]
      · exact ⟨some Warning.overheated, by simp [Player.shoot, hlen, hw, he, ht]⟩
  refine ⟨?_, ?_, ?_, ?_, hfire0, ?_⟩
  · intro he
    simp [Player.shoot, hlen, hw, he]
  · intro he ht hle
    simp [Player.shoot, hlen, hw, he, ht, not_lt.mpr hle]
  · intro he ht ha
    simp [Player.shoot, hlen, hw, he, ht, ha]
  · intro he ht ha
    simp [Player.shoot, hlen, hw, he, ht, ha]
  · intro ha n
    induction n with
    | zero => rfl
    | succ k ih =>
      obtain ⟨warn, hwarn⟩ := hfire0 ha
      simp only [List.replicate_succ, runWpnOps, applyWpnOp, hwarn, Except.map]
      exact ih

/-- Witness for C3: concrete empty-slot, overheated, out-of-ammo,
successful, and repeated-fire cases. -/
theorem spacehunter_c3_witness :
    (Player.shoot basePlayer = Except.ok (basePlayer, false, none, none)) ∧
    (Player.shoot { basePlayer with weapons := [⟨WpnClassName.Laser, 5, 30⟩] } =
      Except.ok ({ basePlayer with weapons := [⟨WpnClassName.Laser, 5, 30⟩] },
        false, none, some Warning.overheated)) ∧
    (Player.shoot { basePlayer with weapons := [⟨WpnClassName.Laser, 0, 0⟩] } =
      Except.ok ({ basePlayer with weapons := [⟨WpnClassName.Laser, 0, 0⟩] },
        false, none, some (Warning.outOfAmmo
          ((classStats WpnClassName.Laser).auto_replenish != 0)))) ∧
    (Player.shoot { basePlayer with selWeapon := 1 } =
      Except.ok ({ { basePlayer with selWeapon := 1 } with weapons := basePlayer.weapons.set 1 ⟨WpnClassName.Laser, 100 - 1, 0 + 1⟩ },
        true, some (mkProjectile WpnClassName.Laser PLAYER basePlayer.pos basePlayer.rot
          basePlayer.vel), none)) ∧
    (runWpnOps { basePlayer with weapons := [⟨WpnClassName.Laser, 0, 0⟩] }
      (List.replicate 3 WpnOp.fire) =
      Except.ok { basePlayer with weapons := [⟨WpnClassName.Laser, 0, 0⟩] }) := by
  refine ⟨?_, ?_, ?_, ?_, ?_⟩
  · exact (spacehunter_c3_fire_contract basePlayer ⟨WpnClassName.Empty, 0, 0⟩ rfl).1 rfl
  · exact (spacehunter_c3_fire_contract
      { basePlayer with weapons := [⟨WpnClassName.Laser, 5, 30⟩] }
      ⟨WpnClassName.Laser, 5, 30⟩ rfl).2.1 (by decide) (by decide) (by decide)
  · exact (spacehunter_c3_fire_contract
      { basePlayer with weapons := [⟨WpnClassName.Laser, 0, 0⟩] }
      ⟨WpnClassName.Laser, 0, 0⟩ rfl).2.2.1 (by decide) (by decide) rfl
  · exact (spacehunter_c3_fire_contract { basePlayer with selWeapon := 1 }
      ⟨WpnClassName.Laser, 100, 0⟩ rfl).2.2.2.1 (by decide) (by decide) (by decide)
  · exact (spacehunter_c3_fire_contract
      { basePlayer with weapons := [⟨WpnClassName.Laser, 0, 0⟩] }
      ⟨WpnClassName.Laser, 0, 0⟩ rfl).2.2.2.2.2 rfl 3

theorem classStats_max_temp_nonneg (c : WpnClassName) : 0 ≤ (classStats c).max_temp := by
  cases c <;> decide

theorem shoot_heatInv (p : Player.State)
    (r : Player.State × Bool × Option ProjSpawn × Option Warning)
    (h : Player.shoot p = Except.ok r) (hi : heatInv p.weapons) : heatInv r.1.weapons := by
  by_cases hsel : p.weapons.length ≥ p.selWeapon
  · cases hw : p.weapons[p.selWeapon]? with
    | none =>
      have : Player.shoot p = Except.error () := by simp [Player.shoot, hsel, hw]
      rw [this] at h
      exact absurd h (by simp)
    | some w =>
      by_cases he : w.wpn_class = WpnClassName.Empty
      · have heval : Player.shoot p = Except.ok (p, false, none, none) := by
          simp [Player.shoot, hsel, hw, he]
        rw [heval] at h
        cases h
        exact hi
      · by_cases ht : (classStats w.wpn_class).max_temp = 0 ∨
          w.temp < (classStats w.wpn_class).max_temp
        · by_cases ha : w.ammo > 0
          · have heval : Player.shoot p = Except.ok
                ({ p with weapons :=
                   p.weapons.set p.selWeapon ⟨w.wpn_class, w.ammo - 1, w.temp + 1⟩ },
                 true, some (mkProjectile w.wpn_class PLAYER p.pos p.rot p.vel), none) := by
              simp [Player.shoot, hsel, hw, he, ht, ha]
            rw [heval] at h
            cases h
            intro w' hw'
            rcases List.mem_or_eq_of_mem_set hw' with hmem | heq
            · exact hi w' hmem
            · subst heq
              have hwmem : w ∈ p.weapons := by
                obtain ⟨hlt, hget⟩ := List.getElem?_eq_some.mp hw
                exact hget ▸ List.getElem_mem hlt
              obtain ⟨h0, hb⟩ := hi w hwmem
              constructor
              · show (0 : ℤ) ≤ w.temp + 1
                omega
              · show (classStats w.wpn_class).max_temp ≠ 0 →
                  w.temp + 1 ≤ (classStats w.wpn_class).max_temp
                intro hmt
                rcases ht with ht0 | htl
                · exact absurd ht0 hmt
                · omega
          · have heval : Player.shoot p = Except.ok (p, false, none,
                some (Warning.outOfAmmo ((classStats w.wpn_class).auto_replenish != 0))) := by
              simp [Player.shoot, hsel, hw, he, ht, ha]
            rw [heval] at h
            cases h
            exact hi
        · have heval : Player.shoot p = Except.ok (p, false, none,
              some Warning.overheated) := by
            simp [Player.shoot, hsel, hw, he, ht]
          rw [heval] at h
          cases h
          exact hi
  · have : Player.shoot p = Except.ok (p, false, none, none) := by
      simp [Player.shoot, hsel]
    rw [this] at h
    cases h
    exact hi

theorem cooloff_heatInv (p : Player.State) (now : ℤ) (hi : heatInv p.weapons) :
    heatInv (Player.cooloffStep p now).weapons := by
  unfold Player.cooloffStep
  split
  · intro w' hw'
    simp only [List.mem_map] at hw'
    obtain ⟨w, hwmem, hw⟩ := hw'
    obtain ⟨h0, hb⟩ := hi w hwmem
    subst hw
    unfold Player.cooloffWpn
    constructor
    · show (0 : ℤ) ≤ if w.temp - Player.WPN_COOLOFF_RATE < 0 then 0
        else w.temp - Player.WPN_COOLOFF_RATE
      split_ifs <;> omega
    · show (classStats w.wpn_class).max_temp ≠ 0 →
        (if w.temp - Player.WPN_COOLOFF_RATE < 0 then 0
         else w.temp - Player.WPN_COOLOFF_RATE) ≤ (classStats w.wpn_class).max_temp
      intro hmt
      have hnn := classStats_max_temp_nonneg w.wpn_class
      have := hb hmt
      have hrate : Player.WPN_COOLOFF_RATE = 10 := rfl
      split_ifs <;> omega
  · exact hi

theorem runWpnOps_heatInv (ops : List WpnOp) (p p' : Player.State)
    (hr : runWpnOps p ops = Except.ok p') (hi : heatInv p.weapons) : heatInv p'.weapons := by
  induction ops generalizing p with
  | nil =>
    unfold runWpnOps at hr
    cases hr
    exact hi
  | cons op rest ih =>
    unfold runWpnOps at hr
    split at hr
    · exact absurd hr (by simp)
    · rename_i p1 hstep
      refine ih p1 hr ?_
      cases op with
      | fire =>
        unfold applyWpnOp at hstep
        cases hsh : Player.shoot p with
        | error e =>
          rw [hsh] at hstep
          exact absurd hstep (by simp [Except.map])
        | ok r =>
          rw [hsh] at hstep
          simp only [Except.map] at hstep
          cases hstep
          exact shoot_heatInv p r hsh hi
      | cool now =>
        unfold applyWpnOp at hstep
        cases hstep
        exact cooloff_heatInv p now hi

/-- C4: starting from an all-cold payload, any sequence of fire and
cool-down operations keeps every slot's heat within `[0, max_temp]`
(when `max_temp ≠ 0`) and never below 0; the periodic cool-off sweep
decrements every slot of the payload (selected or not), flooring at 0;
and a weapon class with `max_temp = 0` always fires regardless of its
heat. -/
theorem spacehunter_c4_heat_invariant (p p' : Player.State) (ops : List WpnOp)
    (h0 : ∀ w ∈ p.weapons, w.temp = 0)
    (hr : runWpnOps p ops = Except.ok p') :
    heatInv p'.weapons ∧
    (∀ (q : Player.State) (now : ℤ), now - q.lastWpnCool > Player.WPN_COOLOFF_INT →
      (Player.cooloffStep q now).weapons.map (fun w => w.temp) =
        q.weapons.map (fun w => max 0 (w.temp - Player.WPN_COOLOFF_RATE))) ∧
    (∀ (q : Player.State) (w : WpnEntry), q.weapons[q.selWeapon]? = some w →
      w.wpn_class ≠ WpnClassName.Empty → (classStats w.wpn_class).max_temp = 0 →
      0 < w.ammo →
      Player.shoot q = Except.ok
        ({ q with weapons :=
             q.weapons.set q.selWeapon ⟨w.wpn_class, w.ammo - 1, w.temp + 1⟩ },
         true, some (mkProjectile w.wpn_class PLAYER q.pos q.rot q.vel), none)) := by
  refine ⟨?_, ?_, ?_⟩
  · refine runWpnOps_heatInv ops p p' hr ?_
    intro w hw
    rw [h0 w hw]
    exact ⟨le_refl 0, fun _ => classStats_max_temp_nonneg w.wpn_class⟩
  · intro q now hint
    unfold Player.cooloffStep
    rw [if_pos hint]
    show (q.weapons.map Player.cooloffWpn).map (fun w => w.temp) = _
    rw [List.map_map]
    have : ((fun w : WpnEntry => w.temp) ∘ Player.cooloffWpn) =
        fun w => max 0 (w.temp - Player.WPN_COOLOFF_RATE) := by
      funext w
      show (if w.temp - Player.WPN_COOLOFF_RATE < 0 then 0
        else w.temp - Player.WPN_COOLOFF_RATE) = max 0 (w.temp - Player.WPN_COOLOFF_RATE)
      split_ifs with hlt <;> omega
    rw [this]
  · intro q w hw he ht ha
    have hsel : q.weapons.length ≥ q.selWeapon :=
      le_of_lt (List.getElem?_eq_some.mp hw).1
    simp [Player.shoot, hsel, hw, he, Or.inl ht, ha, ht]

/-- Witness for C4: the default payload run through fire and cool-down
operations, and a `Missile` (max_temp 0) firing at heat 999. -/
theorem spacehunter_c4_witness :
    heatInv ({ basePlayer with lastWpnCool := 4000 } : Player.State).weapons ∧
    (Player.cooloffStep { basePlayer with weapons := [⟨WpnClassName.Laser, 5, 25⟩] } 4000
       : Player.State).weapons.map (fun w => w.temp) =
      [⟨WpnClassName.Laser, 5, 25⟩].map
        (fun w : WpnEntry => max 0 (w.temp - Player.WPN_COOLOFF_RATE)) ∧
    Player.shoot { basePlayer with weapons := [⟨WpnClassName.Missile, 80, 999⟩] } =
      Except.ok
        ({ { basePlayer with weapons := [⟨WpnClassName.Missile, 80, 999⟩] } with
           weapons := [(⟨WpnClassName.Missile, 80, 999⟩ : WpnEntry)].set 0 ⟨WpnClassName.Missile, 80 - 1, 999 + 1⟩ },
         true, some (mkProjectile WpnClassName.Missile PLAYER basePlayer.pos basePlayer.rot
           basePlayer.vel), none) := by
  have hrun : runWpnOps basePlayer [WpnOp.fire, WpnOp.cool 4000, WpnOp.fire] =
      Except.ok { basePlayer with lastWpnCool := 4000 } := by
    show Except.ok _ = _
    rfl
  obtain ⟨h1, h2, h3⟩ := spacehunter_c4_heat_invariant basePlayer
    { basePlayer with lastWpnCool := 4000 } [WpnOp.fire, WpnOp.cool 4000, WpnOp.fire]
    (by decide) hrun
  refine ⟨h1, ?_, ?_⟩
  · exact h2 { basePlayer with weapons := [⟨WpnClassName.Laser, 5, 25⟩] } 4000 (by decide)
  · exact h3 { basePlayer with weapons := [⟨WpnClassName.Missile, 80, 999⟩] }
      ⟨WpnClassName.Missile, 80, 999⟩ rfl (by decide) (by decide) (by decide)

theorem calcCostAux_past (orig : List WpnEntry) (sel : ℕ) :
    ∀ (ws : List WpnEntry) (i : ℕ), sel < i →
      Armoury.calcCostAux orig sel i ws = Except.ok 0 := by
  intro ws
  induction ws with
  | nil => intro i _; rfl
  | cons w0 rest ih =>
    intro i hi
    unfold Armoury.calcCostAux
    rw [if_neg (by omega)]
    exact ih (i + 1) (by omega)

theorem calcCostAux_at (orig : List WpnEntry) (sel : ℕ) (w ow : WpnEntry)
    (how : orig[sel]? = some ow) :
    ∀ (ws : List WpnEntry) (i : ℕ), i ≤ sel → (hlt : sel - i < ws.length) →
      ws[sel - i]? = some w →
      Armoury.calcCostAux orig sel i ws = Except.ok
        (if w.wpn_class = ow.wpn_class
         then (classStats w.wpn_class).ammo_cost * ((classStats w.wpn_class).capacity - ow.ammo)
         else (classStats w.wpn_class).wpn_cost) := by
  intro ws
  induction ws with
  | nil => intro i _ hlt _; simp at hlt
  | cons w0 rest ih =>
    intro i hle hlt hget
    unfold Armoury.calcCostAux
    by_cases hi : i = sel
    · subst hi
      rw [if_pos rfl, how]
      have h0 : i - i = 0 := by omega
      rw [h0] at hget
      simp only [List.getElem?_cons_zero, Option.some.injEq] at hget
      subst hget
      rw [calcCostAux_past orig i rest (i + 1) (by omega)]
      simp [Except.map]
    · rw [if_neg hi]
      have hlt' : sel - (i + 1) < rest.length := by
        simp only [List.length_cons] at hlt
        omega
      refine ih (i + 1) (by omega) hlt' ?_
      have hpos : sel - i = (sel - (i + 1)) + 1 := by omega
      rw [hpos] at hget
      simpa using hget

/-- C5: the armoury transaction cost for a payload edit at the selected
slot is the new class's weapon cost when the slot's class changed, and
`ammo_cost * (capacity - original ammo)` for a same-class reload (no
refund for downgrades); committing fails exactly when the player's
score is below the total cost, leaving payload and score unchanged with
a warning, and otherwise deducts the cost and installs the payload.
Concretely, reloading a Laser slot holding 40 of 100 rounds costs
`30 * (100 - 40) = 1800`, while substituting a Missile costs its weapon
cost 10000 regardless of remaining ammo. -/
theorem spacehunter_c5_armoury (st : Armoury.State) (a : App.State) (p : Player.State)
    (w ow : WpnEntry)
    (hw : st.payload[st.selPayload]? = some w)
    (how : st.origPayload[st.selPayload]? = some ow) :
    (Armoury.calcCost st = Except.ok
      (if w.wpn_class = ow.wpn_class
       then (classStats w.wpn_class).ammo_cost * ((classStats w.wpn_class).capacity - ow.ammo)
       else (classStats w.wpn_class).wpn_cost)) ∧
    (p.score < st.cost →
      Armoury.onSave st a p =
        (st, { a with warning := some (Warning.insufficientPoints st.cost) }, p)) ∧
    (st.cost ≤ p.score →
      Armoury.onSave st a p =
        ({ st with cost := 0 },
         { a with warning := some (Warning.weaponsUpdated st.cost), doingArmoury := false },
         { p with score := p.score - st.cost, weapons := st.payload })) ∧
    (Armoury.calcCost
      { payload := [⟨WpnClassName.Laser, 100, 0⟩],
        origPayload := [⟨WpnClassName.Laser, 40, 0⟩], selArmoury := 1, selPayload := 0,
        cost := 0 } = Except.ok 1800) ∧
    (Armoury.calcCost
      { payload := [⟨WpnClassName.Missile, 80, 0⟩],
        origPayload := [⟨WpnClassName.Laser, 40, 0⟩], selArmoury := 4, selPayload := 0,
        cost := 0 } = Except.ok 10000) := by
  refine ⟨?_, ?_, ?_, by rfl, by rfl⟩
  · unfold Armoury.calcCost
    have := calcCostAux_at st.origPayload st.selPayload w ow how st.payload 0
      (Nat.zero_le _) (by simpa using (List.getElem?_eq_some.mp hw).1) (by simpa using hw)
    simpa using this
  · intro hlt
    unfold Armoury.onSave
    rw [if_pos hlt]
  · intro hle
    unfold Armoury.onSave
    rw [if_neg (not_lt.mpr hle)]

/-- Witness for C5: the concrete Laser-reload armoury state committed
against a poor player (rejected) and a rich player (applied). -/
theorem spacehunter_c5_witness :
    (Armoury.calcCost
      { payload := [⟨WpnClassName.Laser, 100, 0⟩],
        origPayload := [⟨WpnClassName.Laser, 40, 0⟩], selArmoury := 1, selPayload := 0,
        cost := 1800 } = Except.ok 1800) ∧
    (Armoury.onSave
      { payload := [⟨WpnClassName.Laser, 100, 0⟩],
        origPayload := [⟨WpnClassName.Laser, 40, 0⟩], selArmoury := 1, selPayload := 0,
        cost := 1800 } baseApp { basePlayer with score := 1000 } =
      ({ payload := [⟨WpnClassName.Laser, 100, 0⟩],
         origPayload := [⟨WpnClassName.Laser, 40, 0⟩], selArmoury := 1, selPayload := 0,
         cost := 1800 },
       { baseApp with warning := some (Warning.insufficientPoints 1800) },
       { basePlayer with score := 1000 })) ∧
    (Armoury.onSave
      { payload := [⟨WpnClassName.Laser, 100, 0⟩],
        origPayload := [⟨WpnClassName.Laser, 40, 0⟩], selArmoury := 1, selPayload := 0,
        cost := 1800 } baseApp { basePlayer with score := 2000 } =
      ({ payload := [⟨WpnClassName.Laser, 100, 0⟩],
         origPayload := [⟨WpnClassName.Laser, 40, 0⟩], selArmoury := 1, selPayload := 0,
         cost := 0 },
       { baseApp with warning := some (Warning.weaponsUpdated 1800), doingArmoury := false },
       { basePlayer with score := 2000 - 1800, weapons := [⟨WpnClassName.Laser, 100, 0⟩] })) := by
  obtain ⟨h1, h2, h3, _, _⟩ := spacehunter_c5_armoury
    { payload := [⟨WpnClassName.Laser, 100, 0⟩], origPayload := [⟨WpnClassName.Laser, 40, 0⟩],
      selArmoury := 1, selPayload := 0, cost := 1800 }
    baseApp { basePlayer with score := 1000 }
    ⟨WpnClassName.Laser, 100, 0⟩ ⟨WpnClassName.Laser, 40, 0⟩ rfl rfl
  refine ⟨by simpa using h1, h2 (by decide), ?_⟩
  exact (spacehunter_c5_armoury
    { payload := [⟨WpnClassName.Laser, 100, 0⟩], origPayload := [⟨WpnClassName.Laser, 40, 0⟩],
      selArmoury := 1, selPayload := 0, cost := 1800 }
    baseApp { basePlayer with score := 2000 }
    ⟨WpnClassName.Laser, 100, 0⟩ ⟨WpnClassName.Laser, 40, 0⟩ rfl rfl).2.2.1 (by decide)

/-- C6: disintegrating an asteroid of (integer) radius R spawns exactly
`⌊R / 4⌋` child Debris bodies, each with initial velocity equal to the
parent's velocity plus a bounded random jitter (each `randrange`
component lies in `[-ASTSPEED, ASTSPEED)`), all added to the
simulation's spacejunk group, while the asteroid itself is removed from
the group; a large explosion is spawned at the asteroid's centre. -/
theorem spacehunter_c6_asteroid_disintegrate (a : AsteroidState) (junk : List SpaceJunk)
    (draws : ℕ → DebrisDraws)
    (hbound : ∀ k, -ASTSPEED ≤ (draws k).jx ∧ (draws k).jx < ASTSPEED ∧
      -ASTSPEED ≤ (draws k).jy ∧ (draws k).jy < ASTSPEED)
    (hone : junk.count (SpaceJunk.ast a) = 1) :
    (asteroidChildren a draws).length = a.radius / 4 ∧
    (∀ c ∈ asteroidChildren a draws, ∃ k, k < a.radius / 4 ∧
      c.vel = Vec.add a.vel ⟨((draws k).jx : ℝ), ((draws k).jy : ℝ)⟩ ∧
      |(draws k).jx| ≤ ASTSPEED ∧ |(draws k).jy| ≤ ASTSPEED) ∧
    ((Asteroid.disintegrate a junk draws).1 =
      (junk ++ (asteroidChildren a draws).map SpaceJunk.deb).erase (SpaceJunk.ast a)) ∧
    (∀ c ∈ asteroidChildren a draws,
      SpaceJunk.deb c ∈ (Asteroid.disintegrate a junk draws).1) ∧
    SpaceJunk.ast a ∉ (Asteroid.disintegrate a junk draws).1 ∧
    (Asteroid.disintegrate a junk draws).2 = [(a.pos, ExplSize.lg)] := by
  have hlen : (asteroidChildren a draws).length = a.radius / 4 := by
    unfold asteroidChildren
    simp
  have hnotdeb : ∀ c : DebrisState, SpaceJunk.deb c ≠ SpaceJunk.ast a := by
    intro c h
    exact SpaceJunk.noConfusion h
  refine ⟨hlen, ?_, rfl, ?_, ?_, rfl⟩
  · intro c hc
    unfold asteroidChildren at hc
    simp only [List.mem_map, List.mem_range] at hc
    obtain ⟨k, hk, hck⟩ := hc
    obtain ⟨b1, b2, b3, b4⟩ := hbound k
    have hA : ASTSPEED = 6 := rfl
    refine ⟨k, hk, ?_, abs_le.mpr ⟨by omega, by omega⟩, abs_le.mpr ⟨by omega, by omega⟩⟩
    rw [← hck]
    rfl
  · intro c hc
    unfold Asteroid.disintegrate
    simp only
    refine List.mem_erase_of_ne (hnotdeb c) |>.mpr ?_
    exact List.mem_append_right _ (List.mem_map_of_mem SpaceJunk.deb hc)
  · unfold Asteroid.disintegrate
    simp only
    rw [← List.count_eq_zero]
    rw [List.count_erase_self]
    rw [List.count_append]
    rw [hone]
    have hz : ((asteroidChildren a draws).map SpaceJunk.deb).count (SpaceJunk.ast a) = 0 := by
      rw [List.count_eq_zero]
      intro hmem
      obtain ⟨c, _, hc⟩ := List.mem_map.mp hmem
      exact hnotdeb c hc
    rw [hz]

/-- Witness for C6: a concrete asteroid of radius 17 in a singleton
group with a fixed jitter stream spawns 4 debris. -/
theorem spacehunter_c6_witness :
    (asteroidChildren ⟨⟨0, 0⟩, ⟨1, 2⟩, 17, 20⟩ (fun _ => ⟨1, -2, 10, 10⟩)).length = 17 / 4 ∧
    SpaceJunk.ast ⟨⟨0, 0⟩, ⟨1, 2⟩, 17, 20⟩ ∉
      (Asteroid.disintegrate ⟨⟨0, 0⟩, ⟨1, 2⟩, 17, 20⟩
        [SpaceJunk.ast ⟨⟨0, 0⟩, ⟨1, 2⟩, 17, 20⟩] (fun _ => ⟨1, -2, 10, 10⟩)).1 ∧
    (Asteroid.disintegrate ⟨⟨0, 0⟩, ⟨1, 2⟩, 17, 20⟩
      [SpaceJunk.ast ⟨⟨0, 0⟩, ⟨1, 2⟩, 17, 20⟩] (fun _ => ⟨1, -2, 10, 10⟩)).2 =
      [(⟨0, 0⟩, ExplSize.lg)] := by
  have h := spacehunter_c6_asteroid_disintegrate ⟨⟨0, 0⟩, ⟨1, 2⟩, 17, 20⟩
    [SpaceJunk.ast ⟨⟨0, 0⟩, ⟨1, 2⟩, 17, 20⟩] (fun _ => ⟨1, -2, 10, 10⟩)
    (fun k => show -ASTSPEED ≤ (1 : ℤ) ∧ (1 : ℤ) < ASTSPEED ∧ -ASTSPEED ≤ (-2 : ℤ) ∧
      (-2 : ℤ) < ASTSPEED from by decide)
    (by simp)
  exact ⟨h.1, h.2.2.2.2.1, h.2.2.2.2.2⟩

/-- C9 (implicit): `Debris.disintegrate` constructs `⌊radius / 4⌋`
child Debris objects but adds none of them to any sprite group — its
only effects on the simulation are the removal of the parent debris
from the spacejunk group and a small explosion; the constructed
children never join the group. -/
theorem spacehunter_c9_debris_frame (d : DebrisState) (junk : List SpaceJunk)
    (draws : ℕ → DebrisDraws) :
    (Debris.disintegrate d junk draws).2.1.length = d.radius / 4 ∧
    ((Debris.disintegrate d junk draws).1 = junk.erase (SpaceJunk.deb d)) ∧
    (∀ x ∈ (Debris.disintegrate d junk draws).1, x ∈ junk) ∧
    (junk.count (SpaceJunk.deb d) = 1 →
      SpaceJunk.deb d ∉ (Debris.disintegrate d junk draws).1) ∧
    (Debris.disintegrate d junk draws).2.2 = [(d.pos, ExplSize.sm)] := by
  refine ⟨?_, rfl, ?_, ?_, rfl⟩
  · unfold Debris.disintegrate debrisChildren
    simp
  · intro x hx
    exact List.mem_of_mem_erase hx
  · intro hone
    unfold Debris.disintegrate
    simp only
    rw [← List.count_eq_zero, List.count_erase_self, hone]

/-- Witness for C9: a concrete debris of radius 9 in a singleton group
constructs 2 children while the group is simply emptied. -/
theorem spacehunter_c9_witness :
    (Debris.disintegrate ⟨⟨0, 0⟩, ⟨1, 2⟩, 9, 20⟩
      [SpaceJunk.deb ⟨⟨0, 0⟩, ⟨1, 2⟩, 9, 20⟩] (fun _ => ⟨1, -2, 10, 10⟩)).2.1.length = 9 / 4 ∧
    SpaceJunk.deb ⟨⟨0, 0⟩, ⟨1, 2⟩, 9, 20⟩ ∉
      (Debris.disintegrate ⟨⟨0, 0⟩, ⟨1, 2⟩, 9, 20⟩
        [SpaceJunk.deb ⟨⟨0, 0⟩, ⟨1, 2⟩, 9, 20⟩] (fun _ => ⟨1, -2, 10, 10⟩)).1 := by
  have h := spacehunter_c9_debris_frame ⟨⟨0, 0⟩, ⟨1, 2⟩, 9, 20⟩
    [SpaceJunk.deb ⟨⟨0, 0⟩, ⟨1, 2⟩, 9, 20⟩] (fun _ => ⟨1, -2, 10, 10⟩)
  exact ⟨h.1, h.2.2.2.1 (by simp)⟩

/-- C7 (amended): saving and restoring reproduces the weapons payload
exactly — every restored (class, ammo, heat) triple equals the saved
one, with no recomputation — and restores score, lives, level and
shield; the snapshot carries `gamestate` and the selected-weapon index,
but `_on_restart` does not consume the selected-weapon index (the
restored player keeps its prior selection) and sets the game state to
`PLAYING` rather than the saved one. -/
theorem spacehunter_c7_save_restore (a a0 : App.State) (p q : Player.State) :
    ((App.onRestart a q (saveGamedata a0 p)).2.weapons = p.weapons) ∧
    ((App.onRestart a q (saveGamedata a0 p)).2.score = p.score) ∧
    ((App.onRestart a q (saveGamedata a0 p)).2.lives = p.lives) ∧
    ((App.onRestart a q (saveGamedata a0 p)).2.level = p.level) ∧
    ((App.onRestart a q (saveGamedata a0 p)).2.shield = p.shield) ∧
    ((saveGamedata a0 p).gamestate = a0.gamestate) ∧
    ((saveGamedata a0 p).selected_wpn = p.selWeapon) ∧
    ((App.onRestart a q (saveGamedata a0 p)).2.selWeapon = q.selWeapon) ∧
    ((App.onRestart a q (saveGamedata a0 p)).1.gamestate = PLAYING) := by
  refine ⟨?_, rfl, rfl, rfl, rfl, rfl, rfl, rfl, rfl⟩
  show (p.weapons.map fun w => ({ wpn_class := w.wpn_class, ammo := w.ammo, temp := w.temp }
    : WpnEntry)).map (fun w => ({ wpn_class := w.wpn_class, ammo := w.ammo, temp := w.temp }
    : WpnEntry)) = p.weapons
  simp [List.map_map]

/-- Witness for C7: the round trip at a concrete two-slot payload with
nonzero ammo and heat. -/
theorem spacehunter_c7_witness :
    ((App.onRestart baseApp basePlayer (saveGamedata baseApp
      { basePlayer with selWeapon := 1,
                        weapons := [⟨WpnClassName.Laser, 80, 2⟩, ⟨WpnClassName.Gatling, 300, 0⟩] })).2.weapons =
      [(⟨WpnClassName.Laser, 80, 2⟩ : WpnEntry), ⟨WpnClassName.Gatling, 300, 0⟩]) ∧
    ((App.onRestart baseApp basePlayer (saveGamedata baseApp
      { basePlayer with selWeapon := 1,
                        weapons := [⟨WpnClassName.Laser, 80, 2⟩, ⟨WpnClassName.Gatling, 300, 0⟩] })).2.selWeapon =
      basePlayer.selWeapon) :=
  ⟨(spacehunter_c7_save_restore baseApp baseApp
      { basePlayer with selWeapon := 1,
                        weapons := [⟨WpnClassName.Laser, 80, 2⟩, ⟨WpnClassName.Gatling, 300, 0⟩] }
      basePlayer).1,
   (spacehunter_c7_save_restore baseApp baseApp
      { basePlayer with selWeapon := 1,
                        weapons := [⟨WpnClassName.Laser, 80, 2⟩, ⟨WpnClassName.Gatling, 300, 0⟩] }
      basePlayer).2.2.2.2.2.2.2.1⟩

/-- Counterexample for C7 as stated: the snapshot's selected-weapon
index is not consumed by restore — saving with slot 1 selected and
restoring onto a player with slot 0 selected leaves slot 0 selected,
not the saved index. -/
theorem spacehunter_c7_counterexample :
    (App.onRestart baseApp basePlayer
      (saveGamedata baseApp { basePlayer with selWeapon := 1 })).2.selWeapon ≠
    (saveGamedata baseApp { basePlayer with selWeapon := 1 }).selected_wpn := by
  decide

/-- C8: when the player's shield drops to 0 or below, a death explosion
is spawned; if lives remain, exactly one life is deducted, the shield
is reset to its maximum (100), the player is hidden (and stays hidden
under `unhideStep` for the fixed `NEW_LIFE_INT` respawn interval), and
the transient sprite groups (projectiles, enemy projectiles, spacejunk,
wreckage, enemies) are cleared; whenever no lives remain after the
check, the terminal game-over transition is triggered. -/
theorem spacehunter_c8_death_sequence (p : Player.State) (a : App.State) (now : ℤ)
    (hs : p.shield ≤ 0) :
    ((p.pos, ExplSize.death) ∈ (Player.checkHealth p a now).2.explosions) ∧
    (0 < p.lives →
      (Player.checkHealth p a now).1.lives = p.lives - 1 ∧
      (Player.checkHealth p a now).1.shield = 100 ∧
      (Player.checkHealth p a now).1.hidden = true ∧
      (Player.checkHealth p a now).1.hideTimer = now ∧
      (Player.checkHealth p a now).2.weaponsGroup = [] ∧
      (Player.checkHealth p a now).2.enemyWeaponsGroup = [] ∧
      (Player.checkHealth p a now).2.spacejunkGroup = [] ∧
      (Player.checkHealth p a now).2.wreckageGroup = [] ∧
      (Player.checkHealth p a now).2.enemiesGroup = []) ∧
    ((Player.checkHealth p a now).1.lives ≤ 0 →
      (Player.checkHealth p a now).2.gamestate = GAMEOVER) ∧
    (0 < p.lives → ∀ (t : ℤ) (w h : ℝ), t - now ≤ NEW_LIFE_INT →
      (Player.unhideStep (Player.checkHealth p a now).1 t w h).hidden = true) := by
  by_cases hl : 0 < p.lives
  · have heval1 : (Player.checkHealth p a now).1 =
        { Player.hide p a.width a.height now with lives := p.lives - 1, docked := false, shield := Player.MAX_SHIELD } := by
      unfold Player.checkHealth Player.getNewLife
      rw [if_pos hs]
      simp only [gt_iff_lt]
      rw [if_pos hl]
      split <;> split <;> rfl
    have hexpl : (Player.checkHealth p a now).2.explosions =
        a.explosions ++ [(p.pos, ExplSize.death)] := by
      unfold Player.checkHealth Player.getNewLife App.onGameover App.onNewLife
      rw [if_pos hs]
      simp only [gt_iff_lt]
      rw [if_pos hl]
      split
      · split <;> rfl
      · split <;> rfl
    have hgroups : (Player.checkHealth p a now).2.weaponsGroup = [] ∧
        (Player.checkHealth p a now).2.enemyWeaponsGroup = [] ∧
        (Player.checkHealth p a now).2.spacejunkGroup = [] ∧
        (Player.checkHealth p a now).2.wreckageGroup = [] ∧
        (Player.checkHealth p a now).2.enemiesGroup = [] := by
      unfold Player.checkHealth Player.getNewLife App.onGameover App.onNewLife
      rw [if_pos hs]
      simp only [gt_iff_lt]
      rw [if_pos hl]
      split
      · split <;> exact ⟨rfl, rfl, rfl, rfl, rfl⟩
      · split <;> exact ⟨rfl, rfl, rfl, rfl, rfl⟩
    refine ⟨?_, ?_, ?_, ?_⟩
    · rw [hexpl]
      simp
    · intro _
      rw [heval1]
      exact ⟨rfl, rfl, rfl, rfl, hgroups.1, hgroups.2.1, hgroups.2.2.1, hgroups.2.2.2.1,
        hgroups.2.2.2.2⟩
    · intro hle
      rw [heval1] at hle
      have hle' : p.lives - 1 ≤ 0 := hle
      unfold Player.checkHealth
      rw [if_pos hs]
      simp only [gt_iff_lt]
      rw [if_pos hl]
      rw [if_pos (show (Player.getNewLife p
        { a with explosions := a.explosions ++ [(p.pos, ExplSize.death)] } now).1.lives ≤ 0
        from hle')]
      rfl
    · intro _ t w h ht
      rw [heval1]
      unfold Player.unhideStep
      rw [if_neg ?_]
      · rfl
      · intro hcon
        obtain ⟨_, htime⟩ := hcon
        simp only [Player.hide] at htime
        omega
  · push_neg at hl
    have heval : Player.checkHealth p a now =
        (p, App.onGameover { a with explosions := a.explosions ++ [(p.pos, ExplSize.death)] } p) := by
      unfold Player.checkHealth
      rw [if_pos hs]
      simp only [gt_iff_lt]
      rw [if_neg (show ¬ 0 < p.lives from by omega)]
      rw [if_pos (show p.lives ≤ 0 from by omega)]
    refine ⟨?_, ?_, ?_, ?_⟩
    · rw [heval]
      show (p.pos, ExplSize.death) ∈ (App.onGameover _ p).explosions
      unfold App.onGameover
      simp
    · intro hcon
      omega
    · intro _
      rw [heval]
      rfl
    · intro hcon
      omega

/-- Witness for C8: a concrete player at shield −5 with 3 lives:
explosion logged, one life deducted, shield reset, hidden, groups
cleared, and still hidden 1500 ms after respawn. -/
theorem spacehunter_c8_witness :
    ((({ basePlayer with shield := -5 } : Player.State).pos, ExplSize.death) ∈
      (Player.checkHealth { basePlayer with shield := -5 } baseApp 1000).2.explosions) ∧
    (Player.checkHealth { basePlayer with shield := -5 } baseApp 1000).1.lives =
      ({ basePlayer with shield := -5 } : Player.State).lives - 1 ∧
    (Player.checkHealth { basePlayer with shield := -5 } baseApp 1000).1.shield = 100 ∧
    (Player.checkHealth { basePlayer with shield := -5 } baseApp 1000).1.hidden = true ∧
    (Player.checkHealth { basePlayer with shield := -5 } baseApp 1000).2.weaponsGroup = [] ∧
    (Player.unhideStep
      (Player.checkHealth { basePlayer with shield := -5 } baseApp 1000).1 2500 800 600).hidden =
      true := by
  have h := spacehunter_c8_death_sequence { basePlayer with shield := -5 } baseApp 1000
    (by decide)
  have hl : (0 : ℤ) < ({ basePlayer with shield := -5 } : Player.State).lives := by decide
  obtain ⟨h1, h2, h3, h4⟩ := h
  obtain ⟨hl1, hl2, hl3, hl4, hg1, _, _, _, _⟩ := h2 hl
  exact ⟨h1, hl1, hl2, hl3, hg1, h4 hl 2500 800 600 (by decide)⟩
